import Mathlib

/-!
Verification of the Ledger & Daily-Balance Reconciliation Engine of the
flexio-api repository.

The development shallowly embeds the two core services:

* `DailyBalanceService` (calculateDailyBalance, closeDailyBalance,
  reopenDailyBalance, autoCloseDailyBalance), and
* `TransactionService` (createTransaction, updateTransaction,
  deleteTransaction, bulkUpdateHistoricalTransactions).

Modelling conventions:

* Monetary values (Prisma `Decimal` columns and JavaScript `number`s) are
  rationals `ℚ`; a separate binary64 model (`f64round` and friends) captures
  the IEEE-754 double rounding that JavaScript `number` arithmetic actually
  performs, and is used where a claim is about rounding behaviour.
* Dates (`@db.Date` columns, compared by the services at day granularity
  after `setHours(0,0,0,0)`) are day indices `ℤ`; "the previous day" is
  `d - 1` and "today" is an explicit parameter threaded into each call that
  reads the clock.
* The Prisma stores are association lists inside a `LedgerState`; every
  service method is a function from a state (plus arguments) to
  `Except ServiceError (result × LedgerState)`.  A thrown business error
  (`throw new Error("ALREADY_CLOSED: ...")` etc.) aborts the surrounding
  `prisma.$transaction`, rolling every write back, which the embedding
  renders by returning `Except.error e` carrying no state: the caller keeps
  the pre-call state.
* `prisma.<model>.update` on a missing row throws; the embedding returns
  `ServiceError.recordNotFound` from the corresponding store helper where
  the source has no preceding existence check.
-/

/-- Transaction types, from `enum TransactionType` in `prisma/schema.prisma`. -/
inductive TransactionType
  | DEPOSIT
  | WITHDRAWAL
  | EXPENSE
  | TRANSFER
deriving DecidableEq

/-- A `bank_accounts` row: the fields the engine reads and writes. -/
structure BankAccount where
  id : String
  accountNumber : String
  currentBalance : ℚ
deriving DecidableEq

/-- A `transactions` row: the fields the engine reads and writes.
`transactionDate` is a day index; `relatedTransactionId` is the mutual
back-reference of a transfer pair. -/
structure Transaction where
  id : ℕ
  transactionDate : ℤ
  transactionTime : String
  type : TransactionType
  amount : ℚ
  balanceAfter : ℚ
  note : Option String
  bankAccountId : String
  categoryId : Option String
  createdBy : String
  relatedTransactionId : Option ℕ
deriving DecidableEq

/-- A `daily_balances` row, keyed by `(balanceDate, bankAccountId)`. -/
structure DailyBalance where
  balanceDate : ℤ
  bankAccountId : String
  openingBalance : ℚ
  closingBalance : ℚ
  actualBalance : ℚ
  totalDeposits : ℚ
  totalWithdrawals : ℚ
  totalExpenses : ℚ
  totalTransfers : ℚ
  unknownDeposits : ℚ
  profit : ℚ
  isClosed : Bool
  closedBy : Option String
deriving DecidableEq

/-- The persistent store visible to the engine.  `nextTxnId` models the
generation of fresh transaction ids (`cuid()` in the schema). -/
structure LedgerState where
  accounts : List BankAccount
  transactions : List Transaction
  dailyBalances : List DailyBalance
  nextTxnId : ℕ
deriving DecidableEq

/-- The business-error taxonomy thrown by the services (the source throws
`Error` values whose messages start with these tags; `recordNotFound` stands
for Prisma's P2025 "record to update not found"). -/
inductive ServiceError
  | accountNotFound
  | targetAccountNotFound
  | alreadyClosed
  | notClosed
  | insufficientBalance
  | transactionNotFound
  | recordNotFound
deriving DecidableEq

/-- `prisma.bankAccount.findUnique({where: {id}})`. -/
def findAccount (s : LedgerState) (id : String) : Option BankAccount :=
  s.accounts.find? (fun a => a.id == id)

/-- `prisma.dailyBalance.findUnique` on the compound key
`balanceDate_bankAccountId`. -/
def findDailyBalance (s : LedgerState) (date : ℤ) (bankAccountId : String) :
    Option DailyBalance :=
  s.dailyBalances.find? (fun db => db.balanceDate == date && db.bankAccountId == bankAccountId)

/-- `prisma.bankAccount.update({where: {id}, data: {currentBalance}})`;
throws P2025 if the account row is missing. -/
def setAccountBalance (s : LedgerState) (id : String) (newBalance : ℚ) :
    Except ServiceError LedgerState :=
  if s.accounts.any (fun a => a.id == id) then
    Except.ok { s with
      accounts := s.accounts.map (fun a =>
        if a.id == id then { a with currentBalance := newBalance } else a) }
  else
    Except.error ServiceError.recordNotFound

/-- `prisma.dailyBalance.update({where: key, data: {isClosed: false, closedBy: null}})`,
the reopen write shared by every call site (each call site checks the row
exists and is closed before issuing it). -/
def setDailyBalanceOpen (s : LedgerState) (date : ℤ) (bankAccountId : String) : LedgerState :=
  { s with
    dailyBalances := s.dailyBalances.map (fun db =>
      if db.balanceDate == date && db.bankAccountId == bankAccountId then
        { db with isClosed := false, closedBy := none }
      else db) }

/-- The guarded reopen pattern of the transaction service: look the day up
and flip it open only when it exists and `isClosed` — otherwise leave the
state untouched. -/
def reopenIfClosed (s : LedgerState) (date : ℤ) (bankAccountId : String) : LedgerState :=
  match findDailyBalance s date bankAccountId with
  | some db => if db.isClosed then setDailyBalanceOpen s date bankAccountId else s
  | none => s

/-- The result record of `DailyBalanceService.calculateDailyBalance`. -/
structure CalcResult where
  openingBalance : ℚ
  closingBalance : ℚ
  totalDeposits : ℚ
  totalWithdrawals : ℚ
  totalExpenses : ℚ
  totalTransfers : ℚ
  transactionCount : ℕ
deriving DecidableEq

/-- The accumulator of the `transactions.reduce` in `calculateDailyBalance`. -/
structure Totals where
  totalDeposits : ℚ
  totalWithdrawals : ℚ
  totalExpenses : ℚ
  totalTransfers : ℚ
deriving DecidableEq

/-- One step of the `reduce`: add the transaction's amount to the total of
its own type. -/
def accumulateTotals (acc : Totals) (t : Transaction) : Totals :=
  match t.type with
  | TransactionType.DEPOSIT => { acc with totalDeposits := acc.totalDeposits + t.amount }
  | TransactionType.WITHDRAWAL => { acc with totalWithdrawals := acc.totalWithdrawals + t.amount }
  | TransactionType.EXPENSE => { acc with totalExpenses := acc.totalExpenses + t.amount }
  | TransactionType.TRANSFER => { acc with totalTransfers := acc.totalTransfers + t.amount }

/-- `prisma.transaction.findMany({where: {bankAccountId, transactionDate: date}})`. -/
def dayTransactions (s : LedgerState) (bankAccountId : String) (date : ℤ) : List Transaction :=
  s.transactions.filter (fun t => t.bankAccountId == bankAccountId && t.transactionDate == date)

/-- `DailyBalanceService.calculateDailyBalance`: opening balance from the
previous day's record (its `actualBalance` when the record exists, else 0),
per-type totals over the day's transactions, and the derived closing
balance.  Read-only. -/
def calculateDailyBalance (s : LedgerState) (bankAccountId : String) (date : ℤ) : CalcResult :=
  let openingBalance : ℚ :=
    match findDailyBalance s (date - 1) bankAccountId with
    | some previousBalance => previousBalance.actualBalance
    | none => 0
  let transactions := dayTransactions s bankAccountId date
  let totals := transactions.foldl accumulateTotals ⟨0, 0, 0, 0⟩
  let closingBalance :=
    openingBalance + totals.totalDeposits - totals.totalWithdrawals -
      totals.totalExpenses - totals.totalTransfers
  { openingBalance := openingBalance
    closingBalance := closingBalance
    totalDeposits := totals.totalDeposits
    totalWithdrawals := totals.totalWithdrawals
    totalExpenses := totals.totalExpenses
    totalTransfers := totals.totalTransfers
    transactionCount := transactions.length }

/-- The reconciliation figures computed inside `closeDailyBalance` and
(identically) inside `autoCloseDailyBalance`. -/
structure Reconciliation where
  totalOutflow : ℚ
  balanceChange : ℚ
  totalAllDeposits : ℚ
  unknownDeposits : ℚ
  profit : ℚ
deriving DecidableEq

/-- The reconciliation arithmetic of `closeDailyBalance` lines 101–117
(repeated verbatim in `autoCloseDailyBalance` lines 291–302). -/
def reconcile (calculation : CalcResult) (actualBalance : ℚ) : Reconciliation :=
  let totalOutflow :=
    calculation.totalWithdrawals + calculation.totalExpenses + calculation.totalTransfers
  let totalKnownDeposits := calculation.totalDeposits
  let balanceChange := actualBalance - calculation.openingBalance
  let totalAllDeposits := totalOutflow + balanceChange
  let unknownDeposits := totalAllDeposits - totalKnownDeposits
  let profit :=
    unknownDeposits - (calculation.totalWithdrawals + calculation.totalExpenses)
  { totalOutflow := totalOutflow
    balanceChange := balanceChange
    totalAllDeposits := totalAllDeposits
    unknownDeposits := unknownDeposits
    profit := profit }

/-- The `update` branch's row: rewrites `actualBalance`, the per-type
totals, the reconciliation figures, `isClosed` and `closedBy`, keeping the
row's `openingBalance`/`closingBalance` (and key) as they were. -/
def updatedClosedRecord (existing : DailyBalance) (calculation : CalcResult)
    (actualBalance : ℚ) (userId : String) : DailyBalance :=
  { existing with
    actualBalance := actualBalance
    totalDeposits := calculation.totalDeposits
    totalWithdrawals := calculation.totalWithdrawals
    totalExpenses := calculation.totalExpenses
    totalTransfers := calculation.totalTransfers
    unknownDeposits := (reconcile calculation actualBalance).unknownDeposits
    profit := (reconcile calculation actualBalance).profit
    isClosed := true
    closedBy := some userId }

/-- The `create` branch's row: stores the freshly calculated opening and
closing balances along with everything the `update` branch stores. -/
def createdClosedRecord (date : ℤ) (bankAccountId : String) (calculation : CalcResult)
    (actualBalance : ℚ) (userId : String) : DailyBalance :=
  { balanceDate := date
    bankAccountId := bankAccountId
    openingBalance := calculation.openingBalance
    closingBalance := calculation.closingBalance
    actualBalance := actualBalance
    totalDeposits := calculation.totalDeposits
    totalWithdrawals := calculation.totalWithdrawals
    totalExpenses := calculation.totalExpenses
    totalTransfers := calculation.totalTransfers
    unknownDeposits := (reconcile calculation actualBalance).unknownDeposits
    profit := (reconcile calculation actualBalance).profit
    isClosed := true
    closedBy := some userId }

/-- The `prisma.dailyBalance.upsert` of close/auto-close: update the
matching row in place, or append a newly created one. -/
def upsertClosedDailyBalance (s : LedgerState) (date : ℤ) (bankAccountId : String)
    (calculation : CalcResult) (actualBalance : ℚ) (userId : String) :
    DailyBalance × LedgerState :=
  match findDailyBalance s date bankAccountId with
  | some existing =>
      let updated := updatedClosedRecord existing calculation actualBalance userId
      (updated,
        { s with
          dailyBalances := s.dailyBalances.map (fun db =>
            if db.balanceDate == date && db.bankAccountId == bankAccountId then updated
            else db) })
  | none =>
      let created := createdClosedRecord date bankAccountId calculation actualBalance userId
      (created, { s with dailyBalances := s.dailyBalances ++ [created] })

/-- The body shared verbatim by `closeDailyBalance` (after its
ALREADY_CLOSED guard) and `autoCloseDailyBalance`: calculate, reconcile,
upsert a closed record, then set `bankAccount.currentBalance` to the
verified `actualBalance`. -/
def closeCore (s : LedgerState) (bankAccountId : String) (date : ℤ)
    (actualBalance : ℚ) (userId : String) :
    Except ServiceError (DailyBalance × LedgerState) := do
  let calculation := calculateDailyBalance s bankAccountId date
  let (dailyBalance, s1) :=
    upsertClosedDailyBalance s date bankAccountId calculation actualBalance userId
  let s2 ← setAccountBalance s1 bankAccountId actualBalance
  return (dailyBalance, s2)

/-- `DailyBalanceService.closeDailyBalance`: throws ALREADY_CLOSED when the
existing record is closed, otherwise runs the shared close body. -/
def closeDailyBalance (s : LedgerState) (bankAccountId : String) (date : ℤ)
    (actualBalance : ℚ) (userId : String) :
    Except ServiceError (DailyBalance × LedgerState) :=
  if (findDailyBalance s date bankAccountId).any (fun db => db.isClosed) then
    Except.error ServiceError.alreadyClosed
  else
    closeCore s bankAccountId date actualBalance userId

/-- `DailyBalanceService.autoCloseDailyBalance`: the same body as
`closeDailyBalance` with the ALREADY_CLOSED guard skipped. -/
def autoCloseDailyBalance (s : LedgerState) (bankAccountId : String) (date : ℤ)
    (actualBalance : ℚ) (userId : String) :
    Except ServiceError (DailyBalance × LedgerState) :=
  closeCore s bankAccountId date actualBalance userId

/-- `DailyBalanceService.reopenDailyBalance`: throws
DAILY_BALANCE_NOT_CLOSED when the record is missing or not closed,
otherwise clears `isClosed`/`closedBy` and returns `true`. -/
def reopenDailyBalance (s : LedgerState) (bankAccountId : String) (date : ℤ)
    (_userId : String) : Except ServiceError (Bool × LedgerState) :=
  match findDailyBalance s date bankAccountId with
  | none => Except.error ServiceError.notClosed
  | some dailyBalance =>
      if dailyBalance.isClosed then
        Except.ok (true, setDailyBalanceOpen s date bankAccountId)
      else
        Except.error ServiceError.notClosed

/-- The input of `TransactionService.createTransaction`. -/
structure CreateTransactionInput where
  transactionDate : ℤ
  transactionTime : String
  type : TransactionType
  amount : ℚ
  bankAccountId : String
  categoryId : Option String
  note : Option String
  transferToBankAccountId : Option String
  createdBy : String
deriving DecidableEq

/-- The result of `TransactionService.createTransaction`.  As in the
source, `transaction` is the snapshot taken at insert time, so for a
transfer its `relatedTransactionId` is still `none` even though the stored
row has been back-patched. -/
structure CreateTransactionResult where
  transaction : Transaction
  relatedTransaction : Option Transaction
  reopenedDailyBalance : Bool
deriving DecidableEq

/-- Append a freshly created transaction row and advance the id counter
(`prisma.transaction.create`). -/
def addTransaction (s : LedgerState) (t : Transaction) : LedgerState :=
  { s with transactions := s.transactions ++ [t], nextTxnId := s.nextTxnId + 1 }

/-- `prisma.transaction.update({where: {id}, data: {relatedTransactionId}})`:
back-patch the transfer cross-reference. -/
def setTransactionRelated (s : LedgerState) (id : ℕ) (relatedId : ℕ) : LedgerState :=
  { s with
    transactions := s.transactions.map (fun t =>
      if t.id == id then { t with relatedTransactionId := some relatedId } else t) }

/-- `TransactionService.createTransaction`.  `today` is the value of
`new Date()` truncated to day granularity (`setHours(0,0,0,0)`). -/
def createTransaction (today : ℤ) (s : LedgerState) (input : CreateTransactionInput) :
    Except ServiceError (CreateTransactionResult × LedgerState) := do
  let some bankAccount := findAccount s input.bankAccountId
    | throw ServiceError.accountNotFound
  let existingDailyBalance := findDailyBalance s input.transactionDate input.bankAccountId
  let reopened := existingDailyBalance.any (fun db => db.isClosed)
  let s1 := if reopened then setDailyBalanceOpen s input.transactionDate input.bankAccountId else s
  let newBalance :=
    if input.type = TransactionType.DEPOSIT then bankAccount.currentBalance + input.amount
    else bankAccount.currentBalance - input.amount
  let transaction : Transaction :=
    { id := s1.nextTxnId
      transactionDate := input.transactionDate
      transactionTime := input.transactionTime
      type := input.type
      amount := input.amount
      balanceAfter := newBalance
      note := input.note
      bankAccountId := input.bankAccountId
      categoryId := input.categoryId
      createdBy := input.createdBy
      relatedTransactionId := none }
  let s2 := addTransaction s1 transaction
  let s3 ←
    if input.transactionDate = today then
      setAccountBalance s2 input.bankAccountId newBalance
    else
      pure s2
  match input.type, input.transferToBankAccountId with
  | TransactionType.TRANSFER, some transferToId => do
      let some targetAccount := findAccount s3 transferToId
        | throw ServiceError.targetAccountNotFound
      let targetNewBalance := targetAccount.currentBalance + input.amount
      let relatedTransaction : Transaction :=
        { id := s3.nextTxnId
          transactionDate := input.transactionDate
          transactionTime := input.transactionTime
          type := TransactionType.DEPOSIT
          amount := input.amount
          balanceAfter := targetNewBalance
          note := some ("Transfer from " ++ bankAccount.accountNumber)
          bankAccountId := transferToId
          categoryId := none
          createdBy := input.createdBy
          relatedTransactionId := some transaction.id }
      let s4 := addTransaction s3 relatedTransaction
      let s5 := setTransactionRelated s4 transaction.id relatedTransaction.id
      let s6 ←
        if input.transactionDate = today then
          setAccountBalance s5 transferToId targetNewBalance
        else
          pure s5
      return ({ transaction := transaction
                relatedTransaction := some relatedTransaction
                reopenedDailyBalance := reopened }, s6)
  | _, _ =>
      return ({ transaction := transaction
                relatedTransaction := none
                reopenedDailyBalance := reopened }, s3)

/-- The input of `TransactionService.updateTransaction` (a JS object whose
absent keys leave the corresponding columns untouched). -/
structure UpdateTransactionInput where
  amount : Option ℚ
  note : Option String
  categoryId : Option String
deriving DecidableEq

/-- The result of `TransactionService.updateTransaction`. -/
structure UpdateTransactionResult where
  transaction : Transaction
  isHistoricalUpdate : Bool
  reopenedDailyBalance : Bool
deriving DecidableEq

/-- The `tx.transaction.update({data: {...updates}})` write: a provided
field replaces the column, an absent one leaves it. -/
def applyTransactionUpdates (t : Transaction) (updates : UpdateTransactionInput) : Transaction :=
  { t with
    amount := updates.amount.getD t.amount
    note := (updates.note).or t.note
    categoryId := (updates.categoryId).or t.categoryId }

/-- `TransactionService.updateTransaction`. -/
def updateTransaction (today : ℤ) (s : LedgerState) (transactionId : ℕ)
    (updates : UpdateTransactionInput) (_userId : String) :
    Except ServiceError (UpdateTransactionResult × LedgerState) := do
  let some existingTransaction := s.transactions.find? (fun t => t.id == transactionId)
    | throw ServiceError.transactionNotFound
  let some bankAccount := findAccount s existingTransaction.bankAccountId
    | throw ServiceError.recordNotFound
  let isHistoricalTransaction := existingTransaction.transactionDate < today
  let isTodayTransaction := existingTransaction.transactionDate = today
  let s1 :=
    if isHistoricalTransaction then
      reopenIfClosed s existingTransaction.transactionDate existingTransaction.bankAccountId
    else s
  let s2 ←
    match updates.amount with
    | some newAmount =>
        if isTodayTransaction then do
          let amountDifference := newAmount - existingTransaction.amount
          let newBalance :=
            if existingTransaction.type = TransactionType.DEPOSIT then
              bankAccount.currentBalance + amountDifference
            else
              bankAccount.currentBalance - amountDifference
          if newBalance < 0 then
            throw ServiceError.insufficientBalance
          else
            setAccountBalance s1 existingTransaction.bankAccountId newBalance
        else
          pure s1
    | none => pure s1
  let updatedTransaction := applyTransactionUpdates existingTransaction updates
  let s3 :=
    { s2 with
      transactions := s2.transactions.map (fun t =>
        if t.id == transactionId then updatedTransaction else t) }
  return ({ transaction := updatedTransaction
            isHistoricalUpdate := isHistoricalTransaction
            reopenedDailyBalance := isHistoricalTransaction }, s3)

/-- The result of `TransactionService.deleteTransaction`. -/
structure DeleteTransactionResult where
  success : Bool
  isHistoricalDeletion : Bool
  reopenedDailyBalance : Bool
deriving DecidableEq

/-- `prisma.transaction.delete({where: {id}})`. -/
def removeTransaction (s : LedgerState) (id : ℕ) : LedgerState :=
  { s with transactions := s.transactions.filter (fun t => !(t.id == id)) }

/-- `TransactionService.deleteTransaction`.  The `include:
{relatedTransaction: true}` relation is populated exactly when the row
referenced by `relatedTransactionId` exists, and that leg is deleted in the
same unit before the main row. -/
def deleteTransaction (today : ℤ) (s : LedgerState) (transactionId : ℕ)
    (_userId : String) : Except ServiceError (DeleteTransactionResult × LedgerState) := do
  let some transaction := s.transactions.find? (fun t => t.id == transactionId)
    | throw ServiceError.transactionNotFound
  let some bankAccount := findAccount s transaction.bankAccountId
    | throw ServiceError.recordNotFound
  let isHistoricalTransaction := transaction.transactionDate < today
  let isTodayTransaction := transaction.transactionDate = today
  let s1 :=
    if isHistoricalTransaction then
      reopenIfClosed s transaction.transactionDate transaction.bankAccountId
    else s
  let s2 ←
    if isTodayTransaction then do
      let newBalance :=
        if transaction.type = TransactionType.DEPOSIT then
          bankAccount.currentBalance - transaction.amount
        else
          bankAccount.currentBalance + transaction.amount
      if newBalance < 0 then
        throw ServiceError.insufficientBalance
      else
        setAccountBalance s1 transaction.bankAccountId newBalance
    else
      pure s1
  let s3 :=
    match transaction.relatedTransactionId with
    | some relatedId =>
        if s2.transactions.any (fun t => t.id == relatedId) then removeTransaction s2 relatedId
        else s2
    | none => s2
  let s4 := removeTransaction s3 transactionId
  return ({ success := true
            isHistoricalDeletion := isHistoricalTransaction
            reopenedDailyBalance := isHistoricalTransaction }, s4)

/-- The result of `TransactionService.bulkUpdateHistoricalTransactions`. -/
structure BulkUpdateResult where
  updatedTransactions : ℕ
  affectedDates : List ℤ
  affectedBankAccounts : List String
deriving DecidableEq

/-- Insertion into a JS `Set` (insertion-ordered, deduplicating). -/
def insertUniq {α : Type} [BEq α] (xs : List α) (x : α) : List α :=
  if xs.contains x then xs else xs ++ [x]

/-- One iteration of the first loop of `bulkUpdateHistoricalTransactions`:
when the update's transaction exists, record its date and account in the
two sets and apply the field update; a missing transaction id is
skipped. -/
def bulkUpdateStep (acc : LedgerState × List ℤ × List String)
    (u : ℕ × UpdateTransactionInput) : LedgerState × List ℤ × List String :=
  match acc.1.transactions.find? (fun t => t.id == u.1) with
  | some transaction =>
      ({ acc.1 with
         transactions := acc.1.transactions.map (fun t =>
           if t.id == u.1 then applyTransactionUpdates t u.2 else t) },
       insertUniq acc.2.1 transaction.transactionDate,
       insertUniq acc.2.2 transaction.bankAccountId)
  | none => acc

/-- The first loop of `bulkUpdateHistoricalTransactions`. -/
def bulkApplyUpdates (s : LedgerState) (updates : List (ℕ × UpdateTransactionInput)) :
    LedgerState × List ℤ × List String :=
  updates.foldl bulkUpdateStep (s, [], [])

/-- The second loop of `bulkUpdateHistoricalTransactions`: for every
collected account and every collected date (a Cartesian product), reopen
the daily balance when it exists and is closed. -/
def bulkReopenAffected (s : LedgerState) (accounts : List String) (dates : List ℤ) :
    LedgerState :=
  accounts.foldl (fun s1 bankAccountId =>
    dates.foldl (fun s2 date => reopenIfClosed s2 date bankAccountId) s1) s

/-- `TransactionService.bulkUpdateHistoricalTransactions`: apply the field
updates (never touching balances), then reopen every closed day in the
product of affected accounts and affected dates; reports `updates.length`
as the updated count. -/
def bulkUpdateHistoricalTransactions (s : LedgerState)
    (updates : List (ℕ × UpdateTransactionInput)) (_userId : String) :
    BulkUpdateResult × LedgerState :=
  let (s1, affectedDates, affectedBankAccounts) := bulkApplyUpdates s updates
  let s2 := bulkReopenAffected s1 affectedBankAccounts affectedDates
  ({ updatedTransactions := updates.length
     affectedDates := affectedDates
     affectedBankAccounts := affectedBankAccounts }, s2)

/-! ## Helper instances and list lemmas -/

instance exceptDecEq {ε α : Type} [DecidableEq ε] [DecidableEq α] : DecidableEq (Except ε α) := fun
  | Except.error e, Except.error e' =>
      if h : e = e' then Decidable.isTrue (by rw [h]) else
        Decidable.isFalse (by intro hh; injection hh; exact h (by assumption))
  | Except.error _, Except.ok _ => Decidable.isFalse (by intro hh; exact Except.noConfusion hh)
  | Except.ok _, Except.error _ => Decidable.isFalse (by intro hh; exact Except.noConfusion hh)
  | Except.ok a, Except.ok a' =>
      if h : a = a' then Decidable.isTrue (by rw [h]) else
        Decidable.isFalse (by intro hh; injection hh; exact h (by assumption))

/-- Mapping a keyed in-place replacement through `find?` for the key being
replaced: every row matching `p` is rewritten by `f`, rows not matching are
kept, and rewriting preserves `p`-membership. -/
theorem find?_map_same_key {α : Type} (f : α → α) (p : α → Bool) (l : List α)
    (hstill : ∀ x, p (f x) = p x) :
    (l.map f).find? p = (l.find? p).map f := by
  induction l with
  | nil => rfl
  | cons x t ih =>
      by_cases hp : p x = true
      · have h1 : p (f x) = true := by rw [hstill x]; exact hp
        rw [List.map_cons, List.find?_cons_of_pos _ h1, List.find?_cons_of_pos _ hp]
        rfl
      · have hp' : p x = false := by simpa using hp
        have h1 : ¬ p (f x) = true := by rw [hstill x, hp']; simp
        rw [List.map_cons, List.find?_cons_of_neg _ h1, List.find?_cons_of_neg _ hp]
        exact ih

/-- Mapping a keyed in-place replacement through `find?` for an unrelated
key: rows matching `q` are untouched by `f` and `f` never changes
`q`-membership. -/
theorem find?_map_other_key {α : Type} (f : α → α) (q : α → Bool) (l : List α)
    (hfix : ∀ x, q x = true → f x = x) (hq : ∀ x, q (f x) = q x) :
    (l.map f).find? q = l.find? q := by
  induction l with
  | nil => rfl
  | cons x t ih =>
      by_cases hqx : q x = true
      · have h1 : q (f x) = true := by rw [hq x]; exact hqx
        rw [List.map_cons, List.find?_cons_of_pos _ h1, List.find?_cons_of_pos _ hqx, hfix x hqx]
      · have hqx' : q x = false := by simpa using hqx
        have h1 : ¬ q (f x) = true := by rw [hq x, hqx']; simp
        rw [List.map_cons, List.find?_cons_of_neg _ h1, List.find?_cons_of_neg _ hqx]
        exact ih

/-! ## Facts about the daily-balance state machine -/

/-- The record returned (and stored) by the close/auto-close upsert carries
the verified actual balance, the calculator's per-type totals, the
reconciliation figures, `isClosed` and the closing actor — in both the
`update` and the `create` branch. -/
theorem upsertClosed_record_fields (s : LedgerState) (d : ℤ) (aid : String)
    (c : CalcResult) (a : ℚ) (u : String) :
    ((upsertClosedDailyBalance s d aid c a u).1.actualBalance = a) ∧
    ((upsertClosedDailyBalance s d aid c a u).1.totalDeposits = c.totalDeposits) ∧
    ((upsertClosedDailyBalance s d aid c a u).1.totalWithdrawals = c.totalWithdrawals) ∧
    ((upsertClosedDailyBalance s d aid c a u).1.totalExpenses = c.totalExpenses) ∧
    ((upsertClosedDailyBalance s d aid c a u).1.totalTransfers = c.totalTransfers) ∧
    ((upsertClosedDailyBalance s d aid c a u).1.unknownDeposits = (reconcile c a).unknownDeposits) ∧
    ((upsertClosedDailyBalance s d aid c a u).1.profit = (reconcile c a).profit) ∧
    ((upsertClosedDailyBalance s d aid c a u).1.isClosed = true) ∧
    ((upsertClosedDailyBalance s d aid c a u).1.closedBy = some u) := by
  cases h : findDailyBalance s d aid <;>
    simp [upsertClosedDailyBalance, updatedClosedRecord, createdClosedRecord, h]

/-- The close/auto-close upsert touches only the daily-balance store. -/
theorem upsertClosed_frame (s : LedgerState) (d : ℤ) (aid : String)
    (c : CalcResult) (a : ℚ) (u : String) :
    ((upsertClosedDailyBalance s d aid c a u).2.accounts = s.accounts) ∧
    ((upsertClosedDailyBalance s d aid c a u).2.transactions = s.transactions) ∧
    ((upsertClosedDailyBalance s d aid c a u).2.nextTxnId = s.nextTxnId) := by
  cases h : findDailyBalance s d aid <;>
    simp [upsertClosedDailyBalance, updatedClosedRecord, createdClosedRecord, h]

/-- `setAccountBalance` succeeds exactly on an existing account and then
rewrites only that balance. -/
theorem setAccountBalance_ok (s : LedgerState) (aid : String) (b : ℚ)
    (h : s.accounts.any (fun x => x.id == aid) = true) :
    setAccountBalance s aid b = Except.ok { s with
      accounts := s.accounts.map (fun x =>
        if x.id == aid then { x with currentBalance := b } else x) } := by
  simp [setAccountBalance, h]

/-- Core close body: with the account present, the call succeeds and stores
the upserted record; the final account store is the upserted store with the
closed account's balance set to the actual balance. -/
theorem closeCore_ok (s : LedgerState) (aid : String) (d : ℤ) (a : ℚ) (u : String)
    (h : s.accounts.any (fun x => x.id == aid) = true) :
    closeCore s aid d a u = Except.ok
      ((upsertClosedDailyBalance s d aid (calculateDailyBalance s aid d) a u).1,
       { (upsertClosedDailyBalance s d aid (calculateDailyBalance s aid d) a u).2 with
         accounts := s.accounts.map (fun x =>
           if x.id == aid then { x with currentBalance := a } else x) }) := by
  unfold closeCore
  rcases hu : upsertClosedDailyBalance s d aid (calculateDailyBalance s aid d) a u with ⟨r, s1⟩
  have hacc : s1.accounts = s.accounts := by
    have hframe := (upsertClosed_frame s d aid (calculateDailyBalance s aid d) a u).1
    rw [hu] at hframe
    exact hframe
  have h1 : s1.accounts.any (fun x => x.id == aid) = true := by rw [hacc]; exact h
  simp only [hu]
  rw [setAccountBalance_ok s1 aid a h1]
  simp [bind, Except.bind, pure, Except.pure, hacc]

set_option maxRecDepth 16384

/-- The figures a close/auto-close stores for a calculator result and a
verified actual balance: the claim C1 contract. -/
def StoredReconciliation (c : CalcResult) (actual : ℚ) (r : DailyBalance) : Prop :=
  r.actualBalance = actual ∧
  r.totalDeposits = c.totalDeposits ∧
  r.totalWithdrawals = c.totalWithdrawals ∧
  r.totalExpenses = c.totalExpenses ∧
  r.totalTransfers = c.totalTransfers ∧
  r.unknownDeposits = (reconcile c actual).unknownDeposits ∧
  r.profit = (reconcile c actual).profit

/-- Claim C1: every close or auto-close with a verified actual balance
stores figures obeying the fixed reconciliation contract — with
totalOutflow = totalWithdrawals + totalExpenses + totalTransfers,
balanceChange = actualBalance − opening, totalAllDeposits = totalOutflow +
balanceChange, unknownDeposits = totalAllDeposits − totalDeposits and
profit = unknownDeposits − (totalWithdrawals + totalExpenses); in
particular opening=1000, deposits=300, withdrawals=100, expenses=50,
transfers=0, actualBalance=2000 yields totalOutflow=150,
balanceChange=1000, totalAllDeposits=1150, unknownDeposits=850,
profit=700. -/
theorem close_and_autoClose_store_reconciliation (s : LedgerState) (aid : String)
    (d : ℤ) (actual : ℚ) (uid : String)
    (haccount : s.accounts.any (fun x => x.id == aid) = true)
    (hopen : (findDailyBalance s d aid).any (fun db => db.isClosed) = false) :
    (∀ c : CalcResult, ∀ a : ℚ,
      (reconcile c a).totalOutflow = c.totalWithdrawals + c.totalExpenses + c.totalTransfers ∧
      (reconcile c a).balanceChange = a - c.openingBalance ∧
      (reconcile c a).totalAllDeposits = (reconcile c a).totalOutflow + (reconcile c a).balanceChange ∧
      (reconcile c a).unknownDeposits = (reconcile c a).totalAllDeposits - c.totalDeposits ∧
      (reconcile c a).profit = (reconcile c a).unknownDeposits - (c.totalWithdrawals + c.totalExpenses)) ∧
    (∃ r s₁, closeDailyBalance s aid d actual uid = Except.ok (r, s₁) ∧
      StoredReconciliation (calculateDailyBalance s aid d) actual r) ∧
    (∃ r s₂, autoCloseDailyBalance s aid d actual uid = Except.ok (r, s₂) ∧
      StoredReconciliation (calculateDailyBalance s aid d) actual r) ∧
    reconcile
      { openingBalance := 1000, closingBalance := 1150, totalDeposits := 300,
        totalWithdrawals := 100, totalExpenses := 50, totalTransfers := 0,
        transactionCount := 3 } 2000 =
      { totalOutflow := 150, balanceChange := 1000, totalAllDeposits := 1150,
        unknownDeposits := 850, profit := 700 } := by
  have hfields := upsertClosed_record_fields s d aid (calculateDailyBalance s aid d) actual uid
  have hcore := closeCore_ok s aid d actual uid haccount
  have hguard : closeDailyBalance s aid d actual uid = closeCore s aid d actual uid := by
    unfold closeDailyBalance
    rw [hopen]
    simp
  have hstored : StoredReconciliation (calculateDailyBalance s aid d) actual
      (upsertClosedDailyBalance s d aid (calculateDailyBalance s aid d) actual uid).1 :=
    ⟨hfields.1, hfields.2.1, hfields.2.2.1, hfields.2.2.2.1, hfields.2.2.2.2.1,
      hfields.2.2.2.2.2.1, hfields.2.2.2.2.2.2.1⟩
  exact ⟨fun c a => by simp [reconcile],
    ⟨_, _, hguard.trans hcore, hstored⟩,
    ⟨_, _, hcore, hstored⟩,
    by with_unfolding_all decide⟩

/-- A concrete ledger matching spec Scenario B: account A holds the prior
day's record with actualBalance 1000 and three transactions on day 10
(deposit 300, withdrawal 100, expense 50). -/
def scenarioB : LedgerState :=
  { accounts := [{ id := "A", accountNumber := "111", currentBalance := 1150 }]
    transactions :=
      [{ id := 0, transactionDate := 10, transactionTime := "09:00",
         type := TransactionType.DEPOSIT, amount := 300, balanceAfter := 1300,
         note := none, bankAccountId := "A", categoryId := none, createdBy := "u",
         relatedTransactionId := none },
       { id := 1, transactionDate := 10, transactionTime := "10:00",
         type := TransactionType.WITHDRAWAL, amount := 100, balanceAfter := 1200,
         note := none, bankAccountId := "A", categoryId := none, createdBy := "u",
         relatedTransactionId := none },
       { id := 2, transactionDate := 10, transactionTime := "11:00",
         type := TransactionType.EXPENSE, amount := 50, balanceAfter := 1150,
         note := none, bankAccountId := "A", categoryId := none, createdBy := "u",
         relatedTransactionId := none }]
    dailyBalances :=
      [{ balanceDate := 9, bankAccountId := "A", openingBalance := 0,
         closingBalance := 1000, actualBalance := 1000, totalDeposits := 1000,
         totalWithdrawals := 0, totalExpenses := 0, totalTransfers := 0,
         unknownDeposits := 0, profit := 0, isClosed := true, closedBy := some "u" }]
    nextTxnId := 3 }

/-- Witness for C1: closing scenario B's day 10 at actual balance 2000
succeeds and stores the contract figures. -/
theorem close_and_autoClose_store_reconciliation_witness :
    (∀ c : CalcResult, ∀ a : ℚ,
      (reconcile c a).totalOutflow = c.totalWithdrawals + c.totalExpenses + c.totalTransfers ∧
      (reconcile c a).balanceChange = a - c.openingBalance ∧
      (reconcile c a).totalAllDeposits = (reconcile c a).totalOutflow + (reconcile c a).balanceChange ∧
      (reconcile c a).unknownDeposits = (reconcile c a).totalAllDeposits - c.totalDeposits ∧
      (reconcile c a).profit = (reconcile c a).unknownDeposits - (c.totalWithdrawals + c.totalExpenses)) ∧
    (∃ r s₁, closeDailyBalance scenarioB "A" 10 2000 "u" = Except.ok (r, s₁) ∧
      StoredReconciliation (calculateDailyBalance scenarioB "A" 10) 2000 r) ∧
    (∃ r s₂, autoCloseDailyBalance scenarioB "A" 10 2000 "u" = Except.ok (r, s₂) ∧
      StoredReconciliation (calculateDailyBalance scenarioB "A" 10) 2000 r) ∧
    reconcile
      { openingBalance := 1000, closingBalance := 1150, totalDeposits := 300,
        totalWithdrawals := 100, totalExpenses := 50, totalTransfers := 0,
        transactionCount := 3 } 2000 =
      { totalOutflow := 150, balanceChange := 1000, totalAllDeposits := 1150,
        unknownDeposits := 850, profit := 700 } :=
  close_and_autoClose_store_reconciliation scenarioB "A" 10 2000 "u"
    (by with_unfolding_all decide) (by with_unfolding_all decide)

/-- The reopen write touches only the daily-balance store. -/
theorem setDailyBalanceOpen_frame (s : LedgerState) (d : ℤ) (aid : String) :
    (setDailyBalanceOpen s d aid).accounts = s.accounts ∧
    (setDailyBalanceOpen s d aid).transactions = s.transactions ∧
    (setDailyBalanceOpen s d aid).nextTxnId = s.nextTxnId := by
  simp [setDailyBalanceOpen]

/-- Looking the reopened key up returns the old record with only
`isClosed`/`closedBy` cleared. -/
theorem findDailyBalance_setOpen_same (s : LedgerState) (d : ℤ) (aid : String) :
    findDailyBalance (setDailyBalanceOpen s d aid) d aid =
      (findDailyBalance s d aid).map
        (fun db => { db with isClosed := false, closedBy := none }) := by
  unfold findDailyBalance setDailyBalanceOpen
  rw [find?_map_same_key]
  · cases h : s.dailyBalances.find?
        (fun db => db.balanceDate == d && db.bankAccountId == aid) with
    | none => rfl
    | some db =>
        have hp := List.find?_some h
        simp only [Option.map_some']
        rw [if_pos hp]
  · intro x
    by_cases hx : (x.balanceDate == d && x.bankAccountId == aid) = true
    · simp [hx]
    · simp [hx]

/-- Looking any other key up is unaffected by the reopen write. -/
theorem findDailyBalance_setOpen_other (s : LedgerState) (d : ℤ) (aid : String)
    (d' : ℤ) (aid' : String) (hne : ¬(d' = d ∧ aid' = aid)) :
    findDailyBalance (setDailyBalanceOpen s d aid) d' aid' = findDailyBalance s d' aid' := by
  unfold findDailyBalance setDailyBalanceOpen
  rw [find?_map_other_key]
  · intro x hx
    have h1 : x.balanceDate = d' ∧ x.bankAccountId = aid' := by simpa using hx
    have h2 : (x.balanceDate == d && x.bankAccountId == aid) = false := by
      rcases h1 with ⟨hb, ha⟩
      by_cases hd : d' = d
      · have haid : ¬ aid' = aid := fun hh => hne ⟨hd, hh⟩
        simp [hb, ha, hd, haid]
      · simp [hb, ha, hd]
    simp [h2]
  · intro x
    by_cases hx : (x.balanceDate == d && x.bankAccountId == aid) = true
    · simp [hx]
    · simp [hx]

/-- Claim C4: reopen fails NotClosed exactly when no record exists for
(date, account) or it is not closed; otherwise it clears only
`isClosed`/`closedBy`, leaving every stored total, every other record, the
transactions and the account balances untouched. -/
theorem reopen_fails_NotClosed_iff (s : LedgerState) (aid : String) (d : ℤ) (uid : String) :
    (reopenDailyBalance s aid d uid = Except.error ServiceError.notClosed ↔
      ¬ ∃ db, findDailyBalance s d aid = some db ∧ db.isClosed = true) ∧
    (∀ db, findDailyBalance s d aid = some db → db.isClosed = true →
      reopenDailyBalance s aid d uid = Except.ok (true, setDailyBalanceOpen s d aid) ∧
      findDailyBalance (setDailyBalanceOpen s d aid) d aid =
        some { db with isClosed := false, closedBy := none } ∧
      (setDailyBalanceOpen s d aid).accounts = s.accounts ∧
      (setDailyBalanceOpen s d aid).transactions = s.transactions ∧
      (∀ d' aid', ¬(d' = d ∧ aid' = aid) →
        findDailyBalance (setDailyBalanceOpen s d aid) d' aid' =
          findDailyBalance s d' aid')) := by
  constructor
  · unfold reopenDailyBalance
    cases h : findDailyBalance s d aid with
    | none => simp [h]
    | some db =>
        by_cases hc : db.isClosed = true
        · simp [h, hc]
        · simp [h, hc]
  · intro db hfind hclosed
    refine ⟨?_, ?_, (setDailyBalanceOpen_frame s d aid).1,
      (setDailyBalanceOpen_frame s d aid).2.1,
      fun d' aid' hne => findDailyBalance_setOpen_other s d aid d' aid' hne⟩
    · unfold reopenDailyBalance
      rw [hfind]
      simp [hclosed]
    · rw [findDailyBalance_setOpen_same, hfind]
      rfl

/-- Witness for C4: in scenario B, reopening the closed day 9 succeeds and
reopening the recordless day 10 fails NotClosed. -/
theorem reopen_fails_NotClosed_iff_witness :
    reopenDailyBalance scenarioB "A" 9 "u" =
      Except.ok (true, setDailyBalanceOpen scenarioB 9 "A") ∧
    reopenDailyBalance scenarioB "A" 10 "u" = Except.error ServiceError.notClosed := by
  constructor
  · rcases h : findDailyBalance scenarioB 9 "A" with _ | db
    · exact absurd h (by with_unfolding_all decide)
    · have hc : db.isClosed = true := by
        have : findDailyBalance scenarioB 9 "A" = some db := h
        have hdb := (by with_unfolding_all decide :
          (findDailyBalance scenarioB 9 "A").any (fun r => r.isClosed) = true)
        rw [h] at hdb
        simpa using hdb
      exact ((reopen_fails_NotClosed_iff scenarioB "A" 9 "u").2 db h hc).1
  · refine (reopen_fails_NotClosed_iff scenarioB "A" 10 "u").1.mpr ?_
    have hnone : findDailyBalance scenarioB 10 "A" = none := by with_unfolding_all decide
    simp [hnone]

/-- A ledger whose only daily-balance record, for day 9 of account A, has
been reopened (isClosed = false) with actualBalance 500. -/
def reopenedPriorRecord : DailyBalance :=
  { balanceDate := 9, bankAccountId := "A", openingBalance := 0,
    closingBalance := 450, actualBalance := 500, totalDeposits := 450,
    totalWithdrawals := 0, totalExpenses := 0, totalTransfers := 0,
    unknownDeposits := 50, profit := 50, isClosed := false, closedBy := none }

def reopenedPriorDay : LedgerState :=
  { accounts := [{ id := "A", accountNumber := "111", currentBalance := 500 }]
    transactions := []
    dailyBalances := [reopenedPriorRecord]
    nextTxnId := 0 }

/-- Counterexample to claim C5: the calculator takes the prior day's
actualBalance whenever a record exists, even when that record is open
(isClosed = false) — the opening balance is 500, not 0. -/
theorem opening_uses_open_prior_record :
    (findDailyBalance reopenedPriorDay 9 "A").any (fun db => !db.isClosed) = true ∧
    (calculateDailyBalance reopenedPriorDay "A" 10).openingBalance = 500 ∧
    ¬ (calculateDailyBalance reopenedPriorDay "A" 10).openingBalance = 0 := by
  with_unfolding_all decide

/-- Claim C5 amended: the opening balance used for day d equals the prior
day's record's actualBalance whenever a record for d−1 exists — closed or
open alike — and 0 only when no record exists. -/
theorem opening_from_any_prior_record (s : LedgerState) (aid : String) (d : ℤ) :
    (∀ db, findDailyBalance s (d - 1) aid = some db →
      (calculateDailyBalance s aid d).openingBalance = db.actualBalance) ∧
    (findDailyBalance s (d - 1) aid = none →
      (calculateDailyBalance s aid d).openingBalance = 0) := by
  constructor
  · intro db h
    simp [calculateDailyBalance, h]
  · intro h
    simp [calculateDailyBalance, h]

/-- Witness for C5 (amended): the reopened prior record still supplies the
opening balance 500. -/
theorem opening_from_any_prior_record_witness :
    (calculateDailyBalance reopenedPriorDay "A" 10).openingBalance = 500 := by
  have h : findDailyBalance reopenedPriorDay (10 - 1) "A" = some reopenedPriorRecord := by
    with_unfolding_all decide
  rw [(opening_from_any_prior_record reopenedPriorDay "A" 10).1 reopenedPriorRecord h]
  rfl

/-- After the close/auto-close upsert, looking the closed key up returns
exactly the upserted record (the `update` branch rewrites the matching row
in place, the `create` branch appends a row with that key). -/
theorem findDailyBalance_upsert_same (s : LedgerState) (d : ℤ) (aid : String)
    (c : CalcResult) (a : ℚ) (u : String) :
    findDailyBalance (upsertClosedDailyBalance s d aid c a u).2 d aid =
      some (upsertClosedDailyBalance s d aid c a u).1 := by
  unfold upsertClosedDailyBalance
  cases h : findDailyBalance s d aid with
  | some existing =>
      have h0 : List.find? (fun db => db.balanceDate == d && db.bankAccountId == aid)
          s.dailyBalances = some existing := h
      have hp : (existing.balanceDate == d && existing.bankAccountId == aid) = true :=
        @List.find?_some DailyBalance
          (fun db => db.balanceDate == d && db.bankAccountId == aid) existing
          s.dailyBalances h0
      simp only
      unfold findDailyBalance
      rw [find?_map_same_key]
      · have h' : List.find? (fun db => db.balanceDate == d && db.bankAccountId == aid)
            s.dailyBalances = some existing := h
        rw [h']
        simp only [Option.map_some']
        rw [if_pos hp]
      · intro x
        by_cases hx : (x.balanceDate == d && x.bankAccountId == aid) = true
        · rw [if_pos hx, hx]
          exact hp
        · rw [if_neg hx]
  | none =>
      simp only
      unfold findDailyBalance
      rw [List.find?_append]
      have h' : List.find? (fun db => db.balanceDate == d && db.bankAccountId == aid)
          s.dailyBalances = none := h
      rw [h']
      simp [createdClosedRecord]

/-- Setting one account's balance in place leaves it findable with the new
balance. -/
theorem findAccount_mapBalance (l : List BankAccount) (aid : String) (b : ℚ)
    (h : l.any (fun x => x.id == aid) = true) :
    ((l.map (fun x => if x.id == aid then { x with currentBalance := b } else x)).find?
      (fun x => x.id == aid)).map (fun a => a.currentBalance) = some b := by
  rw [find?_map_same_key]
  · cases hf : l.find? (fun x => x.id == aid) with
    | none =>
        rw [List.find?_eq_none] at hf
        rw [List.any_eq_true] at h
        rcases h with ⟨x, hx, hpx⟩
        exact absurd hpx (by simpa using hf x hx)
    | some a0 =>
        have hp := List.find?_some hf
        simp only [Option.map_some']
        rw [if_pos hp]
  · intro x
    by_cases hx : (x.id == aid) = true
    · simp [hx]
    · simp [hx]

/-- Claim C3: close fails AlreadyClosed exactly when the existing record
for (date, account) is closed (a thrown business error rolls the enclosing
store transaction back, so a failed call writes nothing); otherwise — for
an existing account — it succeeds, stores a record with isClosed,
closedBy = the actor and the computed figures, and sets the account's
currentBalance to the verified actualBalance. -/
theorem close_fails_AlreadyClosed_iff (s : LedgerState) (aid : String) (d : ℤ)
    (actual : ℚ) (uid : String) :
    (closeDailyBalance s aid d actual uid = Except.error ServiceError.alreadyClosed ↔
      ∃ db, findDailyBalance s d aid = some db ∧ db.isClosed = true) ∧
    (s.accounts.any (fun x => x.id == aid) = true →
      ¬(∃ db, findDailyBalance s d aid = some db ∧ db.isClosed = true) →
      ∃ r s', closeDailyBalance s aid d actual uid = Except.ok (r, s') ∧
        r.isClosed = true ∧ r.closedBy = some uid ∧
        StoredReconciliation (calculateDailyBalance s aid d) actual r ∧
        findDailyBalance s' d aid = some r ∧
        (findAccount s' aid).map (fun x => x.currentBalance) = some actual) := by
  have hguard : ((findDailyBalance s d aid).any (fun db => db.isClosed) = true) ↔
      ∃ db, findDailyBalance s d aid = some db ∧ db.isClosed = true := by
    cases h : findDailyBalance s d aid <;> simp [h]
  have hnever : ∀ e, closeCore s aid d actual uid = Except.error e →
      e = ServiceError.recordNotFound := by
    intro e herr
    unfold closeCore at herr
    rcases hu : upsertClosedDailyBalance s d aid (calculateDailyBalance s aid d) actual uid
      with ⟨r, s1⟩
    simp only [hu] at herr
    cases hs : setAccountBalance s1 aid actual with
    | ok s2 =>
        rw [hs] at herr
        simp [bind, Except.bind, pure, Except.pure] at herr
    | error e' =>
        rw [hs] at herr
        simp only [bind, Except.bind] at herr
        injection herr with he
        unfold setAccountBalance at hs
        by_cases hx : s1.accounts.any (fun x => x.id == aid) = true
        · rw [if_pos hx] at hs; cases hs
        · rw [if_neg hx] at hs
          injection hs with hs'
          rw [← he, ← hs']
  constructor
  · constructor
    · intro herr
      by_contra hno
      have hfalse : (findDailyBalance s d aid).any (fun db => db.isClosed) = false := by
        cases hb : (findDailyBalance s d aid).any (fun db => db.isClosed) with
        | false => rfl
        | true => exact absurd (hguard.mp hb) hno
      rw [closeDailyBalance, hfalse] at herr
      simp only [Bool.false_eq_true, if_false] at herr
      cases hnever ServiceError.alreadyClosed herr
    · intro hex
      rw [closeDailyBalance, hguard.mpr hex]
      simp
  · intro haccount hno
    have hfalse : (findDailyBalance s d aid).any (fun db => db.isClosed) = false := by
      cases hb : (findDailyBalance s d aid).any (fun db => db.isClosed) with
      | false => rfl
      | true => exact absurd (hguard.mp hb) hno
    have hcore := closeCore_ok s aid d actual uid haccount
    have hclose : closeDailyBalance s aid d actual uid = closeCore s aid d actual uid := by
      unfold closeDailyBalance
      rw [hfalse]
      simp
    have hfields := upsertClosed_record_fields s d aid (calculateDailyBalance s aid d) actual uid
    refine ⟨_, _, hclose.trans hcore, hfields.2.2.2.2.2.2.2.1, hfields.2.2.2.2.2.2.2.2,
      ⟨hfields.1, hfields.2.1, hfields.2.2.1, hfields.2.2.2.1, hfields.2.2.2.2.1,
        hfields.2.2.2.2.2.1, hfields.2.2.2.2.2.2.1⟩, ?_, ?_⟩
    · show findDailyBalance
        { (upsertClosedDailyBalance s d aid (calculateDailyBalance s aid d) actual uid).2 with
          accounts := s.accounts.map (fun x =>
            if x.id == aid then { x with currentBalance := actual } else x) } d aid = _
      have := findDailyBalance_upsert_same s d aid (calculateDailyBalance s aid d) actual uid
      unfold findDailyBalance at this ⊢
      simpa using this
    · show (findAccount
        { (upsertClosedDailyBalance s d aid (calculateDailyBalance s aid d) actual uid).2 with
          accounts := s.accounts.map (fun x =>
            if x.id == aid then { x with currentBalance := actual } else x) } aid).map
          (fun x => x.currentBalance) = some actual
      unfold findAccount
      simpa using findAccount_mapBalance s.accounts aid actual haccount

/-- Witness for C3: in scenario B day 9 is closed so closing it again fails
AlreadyClosed, while closing day 10 at 2000 succeeds with the reconciled
record and balance write. -/
theorem close_fails_AlreadyClosed_iff_witness :
    closeDailyBalance scenarioB "A" 9 1500 "u" = Except.error ServiceError.alreadyClosed ∧
    (∃ r s', closeDailyBalance scenarioB "A" 10 2000 "u" = Except.ok (r, s') ∧
      r.isClosed = true ∧ r.closedBy = some "u" ∧
      StoredReconciliation (calculateDailyBalance scenarioB "A" 10) 2000 r ∧
      findDailyBalance s' 10 "A" = some r ∧
      (findAccount s' "A").map (fun x => x.currentBalance) = some 2000) := by
  constructor
  · refine (close_fails_AlreadyClosed_iff scenarioB "A" 9 1500 "u").1.mpr ?_
    rcases h : findDailyBalance scenarioB 9 "A" with _ | db
    · exact absurd h (by with_unfolding_all decide)
    · refine ⟨db, rfl, ?_⟩
      have hdb := (by with_unfolding_all decide :
        (findDailyBalance scenarioB 9 "A").any (fun r => r.isClosed) = true)
      rw [h] at hdb
      simpa using hdb
  · refine (close_fails_AlreadyClosed_iff scenarioB "A" 10 2000 "u").2
      (by with_unfolding_all decide) ?_
    have hnone : findDailyBalance scenarioB 10 "A" = none := by with_unfolding_all decide
    simp [hnone]

/-- The close/auto-close upsert leaves every other (date, account) key's
record untouched. -/
theorem findDailyBalance_upsert_other (s : LedgerState) (d : ℤ) (aid : String)
    (c : CalcResult) (a : ℚ) (u : String) (d' : ℤ) (aid' : String)
    (hne : ¬(d' = d ∧ aid' = aid)) :
    findDailyBalance (upsertClosedDailyBalance s d aid c a u).2 d' aid' =
      findDailyBalance s d' aid' := by
  unfold upsertClosedDailyBalance
  cases h : findDailyBalance s d aid with
  | some existing =>
      have h0 : List.find? (fun db => db.balanceDate == d && db.bankAccountId == aid)
          s.dailyBalances = some existing := h
      have hp := @List.find?_some DailyBalance
        (fun db => db.balanceDate == d && db.bankAccountId == aid) existing
        s.dailyBalances h0
      have hex : existing.balanceDate = d ∧ existing.bankAccountId = aid := by simpa using hp
      simp only
      unfold findDailyBalance
      rw [find?_map_other_key]
      · intro x hx
        have h1 : x.balanceDate = d' ∧ x.bankAccountId = aid' := by simpa using hx
        have h2 : (x.balanceDate == d && x.bankAccountId == aid) = false := by
          rcases h1 with ⟨hb, ha⟩
          by_cases hd : d' = d
          · have haid : ¬ aid' = aid := fun hh => hne ⟨hd, hh⟩
            simp [hb, ha, hd, haid]
          · simp [hb, ha, hd]
        simp [h2]
      · intro x
        by_cases hx : (x.balanceDate == d && x.bankAccountId == aid) = true
        · have hx' : x.balanceDate = d ∧ x.bankAccountId = aid := by simpa using hx
          rw [if_pos hx]
          show ((updatedClosedRecord existing c a u).balanceDate == d' &&
              (updatedClosedRecord existing c a u).bankAccountId == aid') = _
          have e1 : (updatedClosedRecord existing c a u).balanceDate = existing.balanceDate := rfl
          have e2 : (updatedClosedRecord existing c a u).bankAccountId =
            existing.bankAccountId := rfl
          rw [e1, e2, hex.1, hex.2, hx'.1, hx'.2]
        · rw [if_neg hx]
  | none =>
      have h' : List.find? (fun db => db.balanceDate == d && db.bankAccountId == aid)
          s.dailyBalances = none := h
      simp only
      unfold findDailyBalance
      rw [List.find?_append]
      have hc : ((createdClosedRecord d aid c a u).balanceDate == d' &&
          (createdClosedRecord d aid c a u).bankAccountId == aid') = false := by
        by_cases hd : d' = d
        · have haid : ¬ aid' = aid := fun hh => hne ⟨hd, hh⟩
          have haid' : ¬ aid = aid' := fun hh => haid hh.symm
          simp [createdClosedRecord, hd, haid']
        · have hd' : ¬ d = d' := fun hh => hd hh.symm
          simp [createdClosedRecord, hd']
      simp [hc]

/-- The calculator reads only the transaction store and the previous day's
record. -/
theorem calculateDailyBalance_congr (s s' : LedgerState) (aid : String) (d : ℤ)
    (ht : s'.transactions = s.transactions)
    (hf : findDailyBalance s' (d - 1) aid = findDailyBalance s (d - 1) aid) :
    calculateDailyBalance s' aid d = calculateDailyBalance s aid d := by
  unfold calculateDailyBalance dayTransactions
  rw [ht, hf]

/-- Upsert on a present key takes the `update` branch. -/
theorem upsertClosed_of_found (s : LedgerState) (d : ℤ) (aid : String)
    (c : CalcResult) (a : ℚ) (u : String) (ex : DailyBalance)
    (h : findDailyBalance s d aid = some ex) :
    upsertClosedDailyBalance s d aid c a u =
      (updatedClosedRecord ex c a u,
       { s with dailyBalances := s.dailyBalances.map (fun db =>
           if db.balanceDate == d && db.bankAccountId == aid then updatedClosedRecord ex c a u
           else db) }) := by
  unfold upsertClosedDailyBalance
  rw [h]

/-- Upsert on an absent key takes the `create` branch. -/
theorem upsertClosed_of_none (s : LedgerState) (d : ℤ) (aid : String)
    (c : CalcResult) (a : ℚ) (u : String)
    (h : findDailyBalance s d aid = none) :
    upsertClosedDailyBalance s d aid c a u =
      (createdClosedRecord d aid c a u,
       { s with dailyBalances := s.dailyBalances ++ [createdClosedRecord d aid c a u] }) := by
  unfold upsertClosedDailyBalance
  rw [h]

/-- Re-updating an updated row with a second actual balance is the same as
updating the original row with the second balance directly. -/
theorem updatedClosedRecord_idem (ex : DailyBalance) (c : CalcResult) (a1 a2 : ℚ)
    (u : String) :
    updatedClosedRecord (updatedClosedRecord ex c a1 u) c a2 u =
      updatedClosedRecord ex c a2 u := rfl

/-- Updating a freshly created row with a second actual balance is the
same as creating it with the second balance directly. -/
theorem updatedClosedRecord_created (d : ℤ) (aid : String) (c : CalcResult)
    (a1 a2 : ℚ) (u : String) :
    updatedClosedRecord (createdClosedRecord d aid c a1 u) c a2 u =
      createdClosedRecord d aid c a2 u := rfl

/-- The in-place balance write preserves which account ids are present. -/
theorem any_id_mapBalance (l : List BankAccount) (aid aid2 : String) (b : ℚ) :
    (l.map (fun x => if x.id == aid2 then { x with currentBalance := b } else x)).any
      (fun x => x.id == aid) = l.any (fun x => x.id == aid) := by
  induction l with
  | nil => rfl
  | cons x t ih =>
      rcases x with ⟨xid, xnum, xbal⟩
      by_cases hx : (xid == aid2) = true
      · simp only [List.map_cons, List.any_cons, ih]
        rw [if_pos hx]
      · simp only [List.map_cons, List.any_cons, ih]
        rw [if_neg hx]

/-- Claim C8: autoClose runs close's computation and side effects without
the AlreadyClosed guard: two consecutive auto-closes of the same
(account, date) with different actual balances both succeed, and after the
second call the stored record is exactly what a single close with the
second actual balance would have stored — the first call's figures are
fully overwritten (and the account balance ends at the second actual
balance). -/
theorem autoClose_twice_overwrites (s : LedgerState) (aid : String) (d : ℤ)
    (a1 a2 : ℚ) (uid : String)
    (haccount : s.accounts.any (fun x => x.id == aid) = true)
    (hopen : (findDailyBalance s d aid).any (fun db => db.isClosed) = false) :
    ∃ r1 s1 r2 s2 rc sc,
      autoCloseDailyBalance s aid d a1 uid = Except.ok (r1, s1) ∧
      autoCloseDailyBalance s1 aid d a2 uid = Except.ok (r2, s2) ∧
      closeDailyBalance s aid d a2 uid = Except.ok (rc, sc) ∧
      r2 = rc ∧
      findDailyBalance s2 d aid = some r2 ∧
      (findAccount s2 aid).map (fun x => x.currentBalance) = some a2 := by
  have hndm1 : ¬((d - 1 : ℤ) = d ∧ aid = aid) := by
    rintro ⟨h1, -⟩
    omega
  -- first auto-close
  have hcore1 := closeCore_ok s aid d a1 uid haccount
  obtain ⟨r1, s1, hEq1, hr1, hs1⟩ :
      ∃ r1 s1, autoCloseDailyBalance s aid d a1 uid = Except.ok (r1, s1) ∧
        r1 = (upsertClosedDailyBalance s d aid (calculateDailyBalance s aid d) a1 uid).1 ∧
        s1 = { (upsertClosedDailyBalance s d aid (calculateDailyBalance s aid d) a1 uid).2 with
               accounts := s.accounts.map (fun x =>
                 if x.id == aid then { x with currentBalance := a1 } else x) } :=
    ⟨_, _, hcore1, rfl, rfl⟩
  have hs1acc : s1.accounts = s.accounts.map (fun x =>
      if x.id == aid then { x with currentBalance := a1 } else x) := by rw [hs1]
  have hs1tx : s1.transactions = s.transactions := by
    rw [hs1]
    exact (upsertClosed_frame s d aid (calculateDailyBalance s aid d) a1 uid).2.1
  have hs1db : s1.dailyBalances =
      (upsertClosedDailyBalance s d aid (calculateDailyBalance s aid d) a1 uid).2.dailyBalances := by
    rw [hs1]
  have hfind1_prev : findDailyBalance s1 (d - 1) aid = findDailyBalance s (d - 1) aid := by
    have step : findDailyBalance s1 (d - 1) aid =
        findDailyBalance
          (upsertClosedDailyBalance s d aid (calculateDailyBalance s aid d) a1 uid).2
          (d - 1) aid := by
      unfold findDailyBalance
      rw [hs1db]
    rw [step]
    exact findDailyBalance_upsert_other s d aid (calculateDailyBalance s aid d) a1 uid
      (d - 1) aid hndm1
  have hcalc1 : calculateDailyBalance s1 aid d = calculateDailyBalance s aid d :=
    calculateDailyBalance_congr s s1 aid d hs1tx hfind1_prev
  have hfind1_key : findDailyBalance s1 d aid = some r1 := by
    have step : findDailyBalance s1 d aid =
        findDailyBalance
          (upsertClosedDailyBalance s d aid (calculateDailyBalance s aid d) a1 uid).2
          d aid := by
      unfold findDailyBalance
      rw [hs1db]
    rw [step, findDailyBalance_upsert_same, hr1]
  have hany_s1 : s1.accounts.any (fun x => x.id == aid) = true := by
    rw [hs1acc, any_id_mapBalance]
    exact haccount
  -- second auto-close
  have hcore2 := closeCore_ok s1 aid d a2 uid hany_s1
  obtain ⟨r2, s2, hEq2, hr2, hs2⟩ :
      ∃ r2 s2, autoCloseDailyBalance s1 aid d a2 uid = Except.ok (r2, s2) ∧
        r2 = (upsertClosedDailyBalance s1 d aid (calculateDailyBalance s1 aid d) a2 uid).1 ∧
        s2 = { (upsertClosedDailyBalance s1 d aid (calculateDailyBalance s1 aid d) a2 uid).2 with
               accounts := s1.accounts.map (fun x =>
                 if x.id == aid then { x with currentBalance := a2 } else x) } :=
    ⟨_, _, hcore2, rfl, rfl⟩
  have hU2 : upsertClosedDailyBalance s1 d aid (calculateDailyBalance s1 aid d) a2 uid =
      (updatedClosedRecord r1 (calculateDailyBalance s aid d) a2 uid,
       { s1 with dailyBalances := s1.dailyBalances.map (fun db =>
           if db.balanceDate == d && db.bankAccountId == aid then
             updatedClosedRecord r1 (calculateDailyBalance s aid d) a2 uid
           else db) }) := by
    rw [hcalc1]
    exact upsertClosed_of_found s1 d aid (calculateDailyBalance s aid d) a2 uid r1 hfind1_key
  have hr2' : r2 = updatedClosedRecord r1 (calculateDailyBalance s aid d) a2 uid := by
    rw [hr2, hU2]
  -- the single close with the second balance
  have hclose : closeDailyBalance s aid d a2 uid = closeCore s aid d a2 uid := by
    unfold closeDailyBalance
    rw [hopen]
    simp
  have hcore3 := closeCore_ok s aid d a2 uid haccount
  refine ⟨r1, s1, r2, s2, _, _, hEq1, hEq2, hclose.trans hcore3, ?_, ?_, ?_⟩
  · -- r2 equals the single close's record
    show r2 = (upsertClosedDailyBalance s d aid (calculateDailyBalance s aid d) a2 uid).1
    cases hfind : findDailyBalance s d aid with
    | some ex =>
        have hU1 := upsertClosed_of_found s d aid (calculateDailyBalance s aid d) a1 uid ex hfind
        have hU3 := upsertClosed_of_found s d aid (calculateDailyBalance s aid d) a2 uid ex hfind
        rw [hr2', hr1, hU1, hU3]
        exact updatedClosedRecord_idem ex (calculateDailyBalance s aid d) a1 a2 uid
    | none =>
        have hU1 := upsertClosed_of_none s d aid (calculateDailyBalance s aid d) a1 uid hfind
        have hU3 := upsertClosed_of_none s d aid (calculateDailyBalance s aid d) a2 uid hfind
        rw [hr2', hr1, hU1, hU3]
        exact updatedClosedRecord_created d aid (calculateDailyBalance s aid d) a1 a2 uid
  · -- the stored record after the second call
    have hs2db : s2.dailyBalances =
        (upsertClosedDailyBalance s1 d aid (calculateDailyBalance s1 aid d) a2 uid).2.dailyBalances := by
      rw [hs2]
    have step : findDailyBalance s2 d aid =
        findDailyBalance
          (upsertClosedDailyBalance s1 d aid (calculateDailyBalance s1 aid d) a2 uid).2
          d aid := by
      unfold findDailyBalance
      rw [hs2db]
    rw [step, findDailyBalance_upsert_same, hr2]
  · -- the account balance after the second call
    have hs2acc : s2.accounts = s1.accounts.map (fun x =>
        if x.id == aid then { x with currentBalance := a2 } else x) := by rw [hs2]
    show (findAccount s2 aid).map (fun x => x.currentBalance) = some a2
    unfold findAccount
    rw [hs2acc]
    exact findAccount_mapBalance s1.accounts aid a2 hany_s1

/-- Witness for C8: two auto-closes of scenario B's day 10 at 1500 then
2000 both succeed, and the second call's record is the one a single close
at 2000 stores. -/
theorem autoClose_twice_overwrites_witness :
    ∃ r1 s1 r2 s2 rc sc,
      autoCloseDailyBalance scenarioB "A" 10 1500 "u" = Except.ok (r1, s1) ∧
      autoCloseDailyBalance s1 "A" 10 2000 "u" = Except.ok (r2, s2) ∧
      closeDailyBalance scenarioB "A" 10 2000 "u" = Except.ok (rc, sc) ∧
      r2 = rc ∧
      findDailyBalance s2 10 "A" = some r2 ∧
      (findAccount s2 "A").map (fun x => x.currentBalance) = some 2000 :=
  autoClose_twice_overwrites scenarioB "A" 10 1500 2000 "u"
    (by with_unfolding_all decide) (by with_unfolding_all decide)

/-- The guarded reopen touches only the daily-balance store. -/
theorem reopenIfClosed_frame (s : LedgerState) (d : ℤ) (aid : String) :
    (reopenIfClosed s d aid).accounts = s.accounts ∧
    (reopenIfClosed s d aid).transactions = s.transactions ∧
    (reopenIfClosed s d aid).nextTxnId = s.nextTxnId := by
  unfold reopenIfClosed
  cases h : findDailyBalance s d aid with
  | none => simp
  | some db =>
      by_cases hc : db.isClosed = true
      · simp [hc, setDailyBalanceOpen]
      · simp [hc]

/-- Claim C7: a create, update or delete of a transaction dated before the
processing day never writes Account.currentBalance; only a same-day
operation does — a same-day DEPOSIT create adds the amount to the balance
and records it as the transaction's balanceAfter. -/
theorem historical_ops_leave_balance (today : ℤ) (s : LedgerState) :
    (∀ input res s', input.transactionDate < today →
      createTransaction today s input = Except.ok (res, s') →
      s'.accounts = s.accounts) ∧
    (∀ txId upd uid res s' t,
      s.transactions.find? (fun x => x.id == txId) = some t →
      t.transactionDate < today →
      updateTransaction today s txId upd uid = Except.ok (res, s') →
      s'.accounts = s.accounts) ∧
    (∀ txId uid res s' t,
      s.transactions.find? (fun x => x.id == txId) = some t →
      t.transactionDate < today →
      deleteTransaction today s txId uid = Except.ok (res, s') →
      s'.accounts = s.accounts) ∧
    (∀ input acct,
      findAccount s input.bankAccountId = some acct →
      input.type = TransactionType.DEPOSIT →
      input.transferToBankAccountId = none →
      input.transactionDate = today →
      ∃ res s', createTransaction today s input = Except.ok (res, s') ∧
        (findAccount s' input.bankAccountId).map (fun x => x.currentBalance) =
          some (acct.currentBalance + input.amount) ∧
        res.transaction.balanceAfter = acct.currentBalance + input.amount) := by
  refine ⟨?_, ?_, ?_, ?_⟩
  · -- historical create
    intro input res s' hhist h
    unfold createTransaction at h
    cases hfa : findAccount s input.bankAccountId with
    | none => simp [hfa] at h
    | some acct =>
        have hne : ¬(input.transactionDate = today) := by omega
        simp only [hfa, if_neg hne, bind, Except.bind, pure, Except.pure] at h
        have hacc1 : (if (findDailyBalance s input.transactionDate input.bankAccountId).any
            (fun db => db.isClosed) = true then
              setDailyBalanceOpen s input.transactionDate input.bankAccountId
            else s).accounts = s.accounts := by
          by_cases hre : (findDailyBalance s input.transactionDate input.bankAccountId).any
              (fun db => db.isClosed) = true
          · rw [if_pos hre]
            exact (setDailyBalanceOpen_frame s input.transactionDate input.bankAccountId).1
          · rw [if_neg hre]
        rcases hty : input.type <;> rcases htr : input.transferToBankAccountId with _ | tid <;>
          simp only [hty, htr] at h
        case TRANSFER.some =>
          cases hta : findAccount _ tid with
          | none =>
              rw [hta] at h
              simp at h
          | some target =>
              rw [hta] at h
              simp only [if_neg hne, bind, Except.bind, pure, Except.pure] at h
              injection h with h'
              injection h' with hres hstate
              rw [← hstate]
              simpa [addTransaction, setTransactionRelated] using hacc1
        all_goals
          injection h with h'
          injection h' with hres hstate
          rw [← hstate]
          simpa [addTransaction] using hacc1
  · -- historical update
    intro txId upd uid res s' t hfind hhist h
    unfold updateTransaction at h
    rw [hfind] at h
    cases hfa : findAccount s t.bankAccountId with
    | none => simp [hfa] at h
    | some acct =>
        have hnt : ¬(t.transactionDate = today) := by omega
        simp only [hfa, if_pos hhist, bind, Except.bind, pure, Except.pure] at h
        have hacc1 : (reopenIfClosed s t.transactionDate t.bankAccountId).accounts =
            s.accounts := (reopenIfClosed_frame s t.transactionDate t.bankAccountId).1
        rcases hupd : upd.amount with _ | na <;> simp only [hupd, if_neg hnt] at h <;>
        · injection h with h'
          injection h' with hres hstate
          rw [← hstate]
          simpa using hacc1
  · -- historical delete
    intro txId uid res s' t hfind hhist h
    unfold deleteTransaction at h
    rw [hfind] at h
    cases hfa : findAccount s t.bankAccountId with
    | none => simp [hfa] at h
    | some acct =>
        have hnt : ¬(t.transactionDate = today) := by omega
        simp only [hfa, if_pos hhist, if_neg hnt, bind, Except.bind, pure, Except.pure] at h
        have hacc1 : (reopenIfClosed s t.transactionDate t.bankAccountId).accounts =
            s.accounts := (reopenIfClosed_frame s t.transactionDate t.bankAccountId).1
        rcases hrel : t.relatedTransactionId with _ | rid <;> simp only [hrel] at h
        · injection h with h'
          injection h' with hres hstate
          rw [← hstate]
          simpa [removeTransaction] using hacc1
        · by_cases hex : ((reopenIfClosed s t.transactionDate t.bankAccountId).transactions.any
              (fun x => x.id == rid)) = true
          · simp only [if_pos hex] at h
            injection h with h'
            injection h' with hres hstate
            rw [← hstate]
            simpa [removeTransaction] using hacc1
          · simp only [if_neg hex] at h
            injection h with h'
            injection h' with hres hstate
            rw [← hstate]
            simpa [removeTransaction] using hacc1
  · -- same-day DEPOSIT create (scenario A shape)
    intro input acct hfa hty htr htoday
    unfold createTransaction
    rw [hfa]
    have hreopen := reopenIfClosed_frame s input.transactionDate input.bankAccountId
    have hacc1 : (if (findDailyBalance s input.transactionDate input.bankAccountId).any
        (fun db => db.isClosed) = true then
          setDailyBalanceOpen s input.transactionDate input.bankAccountId
        else s).accounts = s.accounts := by
      by_cases hre : (findDailyBalance s input.transactionDate input.bankAccountId).any
          (fun db => db.isClosed) = true
      · rw [if_pos hre]
        exact (setDailyBalanceOpen_frame s input.transactionDate input.bankAccountId).1
      · rw [if_neg hre]
    have hany : s.accounts.any (fun x => x.id == input.bankAccountId) = true := by
      cases hfind : s.accounts.find? (fun x => x.id == input.bankAccountId) with
      | none => rw [show findAccount s input.bankAccountId =
            s.accounts.find? (fun x => x.id == input.bankAccountId) from rfl, hfind] at hfa
                cases hfa
      | some a0 =>
          rw [List.any_eq_true]
          exact ⟨a0, List.mem_of_find?_eq_some hfind,
            @List.find?_some BankAccount (fun x => x.id == input.bankAccountId) a0
              s.accounts hfind⟩
    have hany2 : ∀ t : Transaction,
        ((addTransaction (if (findDailyBalance s input.transactionDate
            input.bankAccountId).any (fun db => db.isClosed) = true then
              setDailyBalanceOpen s input.transactionDate input.bankAccountId
            else s) t).accounts.any (fun x => x.id == input.bankAccountId)) = true := by
      intro t
      simpa [addTransaction, hacc1] using hany
    have hs2acc : ∀ t : Transaction,
        (addTransaction (if (findDailyBalance s input.transactionDate
            input.bankAccountId).any (fun db => db.isClosed) = true then
              setDailyBalanceOpen s input.transactionDate input.bankAccountId
            else s) t).accounts = s.accounts := by
      intro t
      simpa [addTransaction] using hacc1
    simp only [hty, htr, if_pos htoday, reduceIte, bind, Except.bind, pure, Except.pure]
    rw [setAccountBalance_ok _ _ _ (hany2 _)]
    refine ⟨_, _, rfl, ?_, rfl⟩
    unfold findAccount
    simp only
    rw [hs2acc]
    rw [findAccount_mapBalance s.accounts input.bankAccountId _ hany]

/-- Scenario A's ledger: one account with balance 1000, nothing else. -/
def scenarioAState : LedgerState :=
  { accounts := [{ id := "A", accountNumber := "111", currentBalance := 1000 }]
    transactions := []
    dailyBalances := []
    nextTxnId := 0 }

/-- Scenario A's request: a DEPOSIT of 500 dated on the processing day. -/
def scenarioAInput : CreateTransactionInput :=
  { transactionDate := 0, transactionTime := "09:00", type := TransactionType.DEPOSIT,
    amount := 500, bankAccountId := "A", categoryId := none, note := none,
    transferToBankAccountId := none, createdBy := "u" }

/-- Witness for C7 (scenario A): balance 1000, same-day DEPOSIT 500 ⇒
balance 1500 and balanceAfter 1500. -/
theorem historical_ops_leave_balance_witness :
    ∃ res s', createTransaction 0 scenarioAState scenarioAInput = Except.ok (res, s') ∧
      (findAccount s' "A").map (fun x => x.currentBalance) = some 1500 ∧
      res.transaction.balanceAfter = 1500 := by
  obtain ⟨res, s', h1, h2, h3⟩ := (historical_ops_leave_balance 0 scenarioAState).2.2.2
    scenarioAInput ⟨"A", "111", 1000⟩ (by with_unfolding_all decide) rfl rfl rfl
  refine ⟨res, s', h1, ?_, ?_⟩
  · rw [show ("A" : String) = scenarioAInput.bankAccountId from rfl, h2]
    with_unfolding_all decide
  · rw [h3]
    with_unfolding_all decide

/-- The only error `setAccountBalance` produces is the missing-row one. -/
theorem setAccountBalance_error (s : LedgerState) (aid : String) (b : ℚ)
    (e : ServiceError) (h : setAccountBalance s aid b = Except.error e) :
    e = ServiceError.recordNotFound := by
  unfold setAccountBalance at h
  by_cases hx : s.accounts.any (fun x => x.id == aid) = true
  · rw [if_pos hx] at h
    cases h
  · rw [if_neg hx] at h
    injection h with h'
    exact h'.symm

/-- Inversion of a failing monadic bind over `Except`. -/
theorem except_bind_error {ε α β : Type} (X : Except ε α) (f : α → Except ε β) (e : ε)
    (h : bind X f = Except.error e) :
    X = Except.error e ∨ ∃ v, X = Except.ok v ∧ f v = Except.error e := by
  cases X with
  | error e' =>
      left
      have : e' = e := by simpa [bind, Except.bind] using h
      rw [this]
  | ok v =>
      right
      refine ⟨v, rfl, ?_⟩
      simpa [bind, Except.bind] using h

/-- Claim C10: createTransaction never fails InsufficientBalance — a
same-day WITHDRAWAL / EXPENSE / destination-less TRANSFER larger than the
current balance succeeds and drives the balance (and the row's
balanceAfter) negative — while updateTransaction and deleteTransaction do
guard against a negative same-day balance. -/
theorem create_never_insufficient (today : ℤ) (s : LedgerState) :
    (∀ input, createTransaction today s input ≠
      Except.error ServiceError.insufficientBalance) ∧
    (∀ input acct,
      findAccount s input.bankAccountId = some acct →
      (input.type = TransactionType.WITHDRAWAL ∨ input.type = TransactionType.EXPENSE ∨
        (input.type = TransactionType.TRANSFER ∧ input.transferToBankAccountId = none)) →
      input.transactionDate = today →
      acct.currentBalance < input.amount →
      ∃ res s', createTransaction today s input = Except.ok (res, s') ∧
        (findAccount s' input.bankAccountId).map (fun x => x.currentBalance) =
          some (acct.currentBalance - input.amount) ∧
        res.transaction.balanceAfter = acct.currentBalance - input.amount ∧
        acct.currentBalance - input.amount < 0) ∧
    (∀ txId upd uid t acct na,
      s.transactions.find? (fun x => x.id == txId) = some t →
      findAccount s t.bankAccountId = some acct →
      t.transactionDate = today →
      upd.amount = some na →
      (if t.type = TransactionType.DEPOSIT then acct.currentBalance + (na - t.amount)
        else acct.currentBalance - (na - t.amount)) < 0 →
      updateTransaction today s txId upd uid =
        Except.error ServiceError.insufficientBalance) ∧
    (∀ txId uid t acct,
      s.transactions.find? (fun x => x.id == txId) = some t →
      findAccount s t.bankAccountId = some acct →
      t.transactionDate = today →
      (if t.type = TransactionType.DEPOSIT then acct.currentBalance - t.amount
        else acct.currentBalance + t.amount) < 0 →
      deleteTransaction today s txId uid =
        Except.error ServiceError.insufficientBalance) := by
  refine ⟨?_, ?_, ?_, ?_⟩
  · -- no InsufficientBalance on the create path
    intro input h
    unfold createTransaction at h
    cases hfa : findAccount s input.bankAccountId with
    | none => simp [hfa, throw, throwThe, MonadExceptOf.throw] at h
    | some acct =>
        simp only [hfa] at h
        split at h <;> try dsimp only at h
        all_goals
          try (rcases except_bind_error _ _ _ h with hx | ⟨sx, hsx, h⟩ <;>
            first
              | exact ServiceError.noConfusion (setAccountBalance_error _ _ _ _ hx)
              | simp [pure, Except.pure] at hx
              | skip)
        all_goals repeat' split at h
        all_goals
          try (rcases except_bind_error _ _ _ h with hx | ⟨sx, hsx, h⟩ <;>
            first
              | exact ServiceError.noConfusion (setAccountBalance_error _ _ _ _ hx)
              | simp [pure, Except.pure] at hx
              | skip)
        all_goals
          first
            | simp [throw, throwThe, MonadExceptOf.throw] at h
            | simp [pure, Except.pure] at h
  · -- same-day oversized outflow create succeeds and goes negative
    intro input acct hfa htype htoday hlt
    unfold createTransaction
    rw [hfa]
    have hacc1 : (if (findDailyBalance s input.transactionDate input.bankAccountId).any
        (fun db => db.isClosed) = true then
          setDailyBalanceOpen s input.transactionDate input.bankAccountId
        else s).accounts = s.accounts := by
      by_cases hre : (findDailyBalance s input.transactionDate input.bankAccountId).any
          (fun db => db.isClosed) = true
      · rw [if_pos hre]
        exact (setDailyBalanceOpen_frame s input.transactionDate input.bankAccountId).1
      · rw [if_neg hre]
    have hany : s.accounts.any (fun x => x.id == input.bankAccountId) = true := by
      cases hfind : s.accounts.find? (fun x => x.id == input.bankAccountId) with
      | none => rw [show findAccount s input.bankAccountId =
            s.accounts.find? (fun x => x.id == input.bankAccountId) from rfl, hfind] at hfa
                cases hfa
      | some a0 =>
          rw [List.any_eq_true]
          exact ⟨a0, List.mem_of_find?_eq_some hfind,
            @List.find?_some BankAccount (fun x => x.id == input.bankAccountId) a0
              s.accounts hfind⟩
    have hany2 : ∀ t : Transaction,
        ((addTransaction (if (findDailyBalance s input.transactionDate
            input.bankAccountId).any (fun db => db.isClosed) = true then
              setDailyBalanceOpen s input.transactionDate input.bankAccountId
            else s) t).accounts.any (fun x => x.id == input.bankAccountId)) = true := by
      intro t
      simpa [addTransaction, hacc1] using hany
    have hs2acc : ∀ t : Transaction,
        (addTransaction (if (findDailyBalance s input.transactionDate
            input.bankAccountId).any (fun db => db.isClosed) = true then
              setDailyBalanceOpen s input.transactionDate input.bankAccountId
            else s) t).accounts = s.accounts := by
      intro t
      simpa [addTransaction] using hacc1
    have hneg : acct.currentBalance - input.amount < 0 := sub_neg.mpr hlt
    rcases htype with hty | hty | ⟨hty, htr⟩
    · simp only [hty, if_pos htoday, reduceIte, bind, Except.bind, pure, Except.pure]
      rw [setAccountBalance_ok _ _ _ (hany2 _)]
      refine ⟨_, _, rfl, ?_, rfl, hneg⟩
      unfold findAccount
      simp only
      rw [hs2acc]
      rw [findAccount_mapBalance s.accounts input.bankAccountId _ hany]
      simp
    · simp only [hty, if_pos htoday, reduceIte, bind, Except.bind, pure, Except.pure]
      rw [setAccountBalance_ok _ _ _ (hany2 _)]
      refine ⟨_, _, rfl, ?_, rfl, hneg⟩
      unfold findAccount
      simp only
      rw [hs2acc]
      rw [findAccount_mapBalance s.accounts input.bankAccountId _ hany]
      simp
    · simp only [hty, htr, if_pos htoday, reduceIte, bind, Except.bind, pure, Except.pure]
      rw [setAccountBalance_ok _ _ _ (hany2 _)]
      refine ⟨_, _, rfl, ?_, rfl, hneg⟩
      unfold findAccount
      simp only
      rw [hs2acc]
      rw [findAccount_mapBalance s.accounts input.bankAccountId _ hany]
      simp
  · -- the update path does guard
    intro txId upd uid t acct na hfind hfa htoday hupd hneg
    have hnh : ¬(t.transactionDate < today) := by omega
    unfold updateTransaction
    simp only [hfind, hfa, hupd, if_neg hnh, if_pos htoday, if_pos hneg, bind, Except.bind,
      throw, throwThe, MonadExceptOf.throw]
  · -- the delete path does guard
    intro txId uid t acct hfind hfa htoday hneg
    have hnh : ¬(t.transactionDate < today) := by omega
    unfold deleteTransaction
    simp only [hfind, hfa, if_neg hnh, if_pos htoday, if_pos hneg, bind, Except.bind,
      throw, throwThe, MonadExceptOf.throw]

/-- A same-day withdrawal larger than the account's balance. -/
def overdraftInput : CreateTransactionInput :=
  { transactionDate := 0, transactionTime := "09:00", type := TransactionType.WITHDRAWAL,
    amount := 1500, bankAccountId := "A", categoryId := none, note := none,
    transferToBankAccountId := none, createdBy := "u" }

/-- Witness for C10: withdrawing 1500 from a balance of 1000 on the
processing day succeeds and leaves the balance (and balanceAfter) at
−500. -/
theorem create_never_insufficient_witness :
    ∃ res s', createTransaction 0 scenarioAState overdraftInput = Except.ok (res, s') ∧
      (findAccount s' "A").map (fun x => x.currentBalance) = some (-500) ∧
      res.transaction.balanceAfter = -500 := by
  obtain ⟨res, s', h1, h2, h3, h4⟩ := (create_never_insufficient 0 scenarioAState).2.1
    overdraftInput ⟨"A", "111", 1000⟩ (by with_unfolding_all decide) (Or.inl rfl) rfl
    (by show (1000 : ℚ) < overdraftInput.amount
        rw [show overdraftInput.amount = 1500 from rfl]
        norm_num)
  refine ⟨res, s', h1, ?_, ?_⟩
  · rw [show ("A" : String) = overdraftInput.bankAccountId from rfl, h2]
    with_unfolding_all decide
  · rw [h3]
    with_unfolding_all decide

/-- Mapping a function that fixes every element of a list is the
identity. -/
theorem map_id_of_fix {α : Type} (f : α → α) (l : List α) (h : ∀ x ∈ l, f x = x) :
    l.map f = l := by
  induction l with
  | nil => rfl
  | cons x t ih =>
      rw [List.map_cons, h x (by simp), ih (fun y hy => h y (by simp [hy]))]

/-- The in-place balance write commutes with account lookup. -/
theorem findAccount_map_set (l : List BankAccount) (aid2 : String) (b : ℚ) (tid : String) :
    (l.map (fun x => if x.id == aid2 then { x with currentBalance := b } else x)).find?
      (fun x => x.id == tid) =
    (l.find? (fun x => x.id == tid)).map
      (fun x => if x.id == aid2 then { x with currentBalance := b } else x) := by
  rw [find?_map_same_key]
  intro x
  by_cases hx : (x.id == aid2) = true
  · rw [if_pos hx]
  · rw [if_neg hx]

/-- A ledger with one account and a TRANSFER request that carries no
destination account. -/
def transferNoDestState : LedgerState :=
  { accounts := [{ id := "A", accountNumber := "111", currentBalance := 1000 }]
    transactions := []
    dailyBalances := []
    nextTxnId := 0 }

def transferNoDestInput : CreateTransactionInput :=
  { transactionDate := 0, transactionTime := "09:00", type := TransactionType.TRANSFER,
    amount := 100, bankAccountId := "A", categoryId := none, note := none,
    transferToBankAccountId := none, createdBy := "u" }

/-- Counterexample to claim C6: a TRANSFER created without a destination
account succeeds and leaves a single unpaired TRANSFER row — no DEPOSIT
leg and no cross-reference exist, so the pair invariant does not hold
after every operation. -/
theorem transferPair_unpaired_transfer :
    ((createTransaction 0 transferNoDestState transferNoDestInput).toOption.map (fun p =>
      ((p.2.transactions.filter (fun t => t.type == TransactionType.TRANSFER)).length,
       (p.2.transactions.filter (fun t => t.type == TransactionType.DEPOSIT)).length,
       p.2.transactions.all (fun t => t.relatedTransactionId == none)))) =
      some (1, 0, true) := by
  with_unfolding_all decide

/-- Frame of the create path's inline "reopen if closed" step. -/
theorem createReopen_frame (s : LedgerState) (d : ℤ) (aid : String) :
    ((if (findDailyBalance s d aid).any (fun db => db.isClosed) = true then
        setDailyBalanceOpen s d aid else s).accounts = s.accounts) ∧
    ((if (findDailyBalance s d aid).any (fun db => db.isClosed) = true then
        setDailyBalanceOpen s d aid else s).transactions = s.transactions) ∧
    ((if (findDailyBalance s d aid).any (fun db => db.isClosed) = true then
        setDailyBalanceOpen s d aid else s).nextTxnId = s.nextTxnId) := by
  by_cases hre : (findDailyBalance s d aid).any (fun db => db.isClosed) = true
  · simp only [if_pos hre]
    exact setDailyBalanceOpen_frame s d aid
  · simp only [if_neg hre]
    exact ⟨trivial, trivial, trivial⟩

/-- A present find? yields a true any. -/
theorem any_of_find?_some {α : Type} (p : α → Bool) (l : List α) (a : α)
    (h : l.find? p = some a) : l.any p = true := by
  rw [List.any_eq_true]
  exact ⟨a, List.mem_of_find?_eq_some h, List.find?_some h⟩

/-- Back-patching the main transfer row in an appended store rewrites
exactly that row. -/
theorem map_patch_append (l : List Transaction) (m r : Transaction) (rid : ℕ)
    (hl : ∀ t ∈ l, (t.id == m.id) = false) (hr : (r.id == m.id) = false) :
    ((l ++ [m]) ++ [r]).map
      (fun t => if t.id == m.id then { t with relatedTransactionId := some rid } else t) =
      l ++ [{ m with relatedTransactionId := some rid }, r] := by
  rw [List.map_append, List.map_append, map_id_of_fix]
  · have hr' : ¬(r.id = m.id) := by simpa using hr
    simp [hr']
  · intro x hx
    rw [if_neg (by simp [hl x hx])]

/-- Lookup after an account-store balance map. -/
theorem findAccount_setBalanceState (s : LedgerState) (aid2 : String) (b : ℚ) (tid : String) :
    findAccount { s with accounts := s.accounts.map (fun x =>
        if x.id == aid2 then { x with currentBalance := b } else x) } tid =
      (findAccount s tid).map
        (fun x => if x.id == aid2 then { x with currentBalance := b } else x) := by
  unfold findAccount
  exact findAccount_map_set s.accounts aid2 b tid

/-- Lookup is unaffected by appending a transaction row. -/
theorem findAccount_addTransaction (s : LedgerState) (t : Transaction) (tid : String) :
    findAccount (addTransaction s t) tid = findAccount s tid := rfl

/-- Lookup is unaffected by the create path's inline reopen. -/
theorem findAccount_reopenIf (s : LedgerState) (d : ℤ) (aid : String) (tid : String) :
    findAccount (if (findDailyBalance s d aid).any (fun db => db.isClosed) = true then
      setDailyBalanceOpen s d aid else s) tid = findAccount s tid := by
  by_cases hre : (findDailyBalance s d aid).any (fun db => db.isClosed) = true
  · simp only [if_pos hre]
    unfold findAccount setDailyBalanceOpen
    rfl
  · simp only [if_neg hre]

/-- Inversion of a successful `setAccountBalance`: only accounts change. -/
theorem setAccountBalance_ok_inv (s : LedgerState) (aid : String) (b : ℚ)
    (s' : LedgerState) (h : setAccountBalance s aid b = Except.ok s') :
    s'.transactions = s.transactions ∧ s'.dailyBalances = s.dailyBalances ∧
      s'.nextTxnId = s.nextTxnId := by
  unfold setAccountBalance at h
  by_cases hx : s.accounts.any (fun x => x.id == aid) = true
  · rw [if_pos hx] at h
    injection h with h'
    rw [← h']
    exact ⟨rfl, rfl, rfl⟩
  · rw [if_neg hx] at h
    cases h

/-- `setAccountBalance` on a literal store. -/
theorem setAccountBalance_ok_fields (accs : List BankAccount) (txs : List Transaction)
    (dbs : List DailyBalance) (n : ℕ) (aid : String) (b : ℚ)
    (h : accs.any (fun x => x.id == aid) = true) :
    setAccountBalance ⟨accs, txs, dbs, n⟩ aid b =
      Except.ok ⟨accs.map (fun x =>
          if x.id == aid then { x with currentBalance := b } else x), txs, dbs, n⟩ := by
  simp [setAccountBalance, h]

/-- Claim C6 amended: the pair guarantees hold per operation and only for
transfers that carry a destination.  A successful TRANSFER create with a
destination appends exactly two rows, mutually cross-referenced, with the
same amount and date and the DEPOSIT leg on the destination account; with
an unknown destination the call fails TargetAccountNotFound (the enclosing
store transaction rolls back, leaving zero rows); deleting a row whose
pair exists removes both rows in one unit.  A TRANSFER without a
destination, however, creates a single unpaired row. -/
theorem transferPair_operations (today : ℤ) (s : LedgerState) :
    (∀ input acct target tid,
      findAccount s input.bankAccountId = some acct →
      input.type = TransactionType.TRANSFER →
      input.transferToBankAccountId = some tid →
      findAccount s tid = some target →
      (∀ t ∈ s.transactions, (t.id == s.nextTxnId) = false) →
      ∃ res s' mainRow relRow,
        createTransaction today s input = Except.ok (res, s') ∧
        s'.transactions = s.transactions ++ [mainRow, relRow] ∧
        mainRow.type = TransactionType.TRANSFER ∧
        relRow.type = TransactionType.DEPOSIT ∧
        mainRow.bankAccountId = input.bankAccountId ∧
        relRow.bankAccountId = tid ∧
        mainRow.amount = input.amount ∧
        relRow.amount = input.amount ∧
        mainRow.transactionDate = input.transactionDate ∧
        relRow.transactionDate = input.transactionDate ∧
        mainRow.relatedTransactionId = some relRow.id ∧
        relRow.relatedTransactionId = some mainRow.id ∧
        ¬(mainRow.id = relRow.id)) ∧
    (∀ input acct tid,
      findAccount s input.bankAccountId = some acct →
      input.type = TransactionType.TRANSFER →
      input.transferToBankAccountId = some tid →
      findAccount s tid = none →
      createTransaction today s input =
        Except.error ServiceError.targetAccountNotFound) ∧
    (∀ txId uid txn rid res s',
      s.transactions.find? (fun x => x.id == txId) = some txn →
      txn.relatedTransactionId = some rid →
      s.transactions.any (fun x => x.id == rid) = true →
      deleteTransaction today s txId uid = Except.ok (res, s') →
      s'.transactions =
        (s.transactions.filter (fun t => !(t.id == rid))).filter
          (fun t => !(t.id == txId))) := by
  refine ⟨?_, ?_, ?_⟩
  · intro input acct target tid hfa hty htr hta hfresh
    obtain ⟨hac, htx, hid⟩ := createReopen_frame s input.transactionDate input.bankAccountId
    have hany : s.accounts.any (fun x => x.id == input.bankAccountId) = true :=
      any_of_find?_some (fun x => x.id == input.bankAccountId) s.accounts acct
        (show s.accounts.find? (fun x => x.id == input.bankAccountId) = some acct from hfa)
    have hanyT : s.accounts.any (fun x => x.id == tid) = true :=
      any_of_find?_some (fun x => x.id == tid) s.accounts target
        (show s.accounts.find? (fun x => x.id == tid) = some target from hta)
    unfold createTransaction
    rw [hfa]
    simp only [hty, htr, addTransaction, setTransactionRelated, htx, hid, hac]
    by_cases hd : input.transactionDate = today
    · simp only [if_pos hd]
      rw [setAccountBalance_ok_fields _ _ _ _ _ _ hany]
      simp only [bind, Except.bind]
      try dsimp only
      simp only [findAccount]
      try dsimp only
      rw [findAccount_map_set]
      rw [show s.accounts.find? (fun x => x.id == tid) = some target from hta]
      simp only [Option.map_some']
      try dsimp only
      try simp only [if_pos hd]
      have hanyT2 : (s.accounts.map (fun x =>
          if x.id == input.bankAccountId then
            { x with currentBalance :=
                if TransactionType.TRANSFER = TransactionType.DEPOSIT then
                  acct.currentBalance + input.amount
                else acct.currentBalance - input.amount }
          else x)).any (fun x => x.id == tid) = true := by
        rw [any_id_mapBalance]
        exact hanyT
      rw [setAccountBalance_ok_fields _ _ _ _ _ _ hanyT2]
      simp only [bind, Except.bind, pure, Except.pure]
      try dsimp only
      have hlist := map_patch_append s.transactions
        { id := s.nextTxnId, transactionDate := input.transactionDate,
          transactionTime := input.transactionTime, type := TransactionType.TRANSFER,
          amount := input.amount,
          balanceAfter :=
            if TransactionType.TRANSFER = TransactionType.DEPOSIT then
              acct.currentBalance + input.amount
            else acct.currentBalance - input.amount,
          note := input.note, bankAccountId := input.bankAccountId,
          categoryId := input.categoryId, createdBy := input.createdBy,
          relatedTransactionId := none }
        { id := s.nextTxnId + 1, transactionDate := input.transactionDate,
          transactionTime := input.transactionTime, type := TransactionType.DEPOSIT,
          amount := input.amount,
          balanceAfter :=
            (if (target.id == input.bankAccountId) = true then
                { id := target.id, accountNumber := target.accountNumber,
                  currentBalance :=
                    if TransactionType.TRANSFER = TransactionType.DEPOSIT then
                      acct.currentBalance + input.amount
                    else acct.currentBalance - input.amount }
              else target).currentBalance + input.amount,
          note := some ("Transfer from " ++ acct.accountNumber), bankAccountId := tid,
          categoryId := none, createdBy := input.createdBy,
          relatedTransactionId := some s.nextTxnId }
        (s.nextTxnId + 1) (fun t ht => hfresh t ht)
        (by simp [beq_eq_false_iff_ne])
      exact ⟨_, _, _, _, rfl, hlist, rfl, rfl, rfl, rfl, rfl, rfl, rfl, rfl, rfl, rfl,
        by show ¬(s.nextTxnId = s.nextTxnId + 1); omega⟩
    · simp only [if_neg hd]
      simp only [bind, Except.bind, pure, Except.pure]
      try dsimp only
      simp only [findAccount]
      try dsimp only
      rw [show s.accounts.find? (fun x => x.id == tid) = some target from hta]
      try dsimp only
      try simp only [if_neg hd]
      try simp only [bind, Except.bind, pure, Except.pure]
      try dsimp only
      have hlist := map_patch_append s.transactions
        { id := s.nextTxnId, transactionDate := input.transactionDate,
          transactionTime := input.transactionTime, type := TransactionType.TRANSFER,
          amount := input.amount,
          balanceAfter :=
            if TransactionType.TRANSFER = TransactionType.DEPOSIT then
              acct.currentBalance + input.amount
            else acct.currentBalance - input.amount,
          note := input.note, bankAccountId := input.bankAccountId,
          categoryId := input.categoryId, createdBy := input.createdBy,
          relatedTransactionId := none }
        { id := s.nextTxnId + 1, transactionDate := input.transactionDate,
          transactionTime := input.transactionTime, type := TransactionType.DEPOSIT,
          amount := input.amount,
          balanceAfter := target.currentBalance + input.amount,
          note := some ("Transfer from " ++ acct.accountNumber), bankAccountId := tid,
          categoryId := none, createdBy := input.createdBy,
          relatedTransactionId := some s.nextTxnId }
        (s.nextTxnId + 1) (fun t ht => hfresh t ht)
        (by simp [beq_eq_false_iff_ne])
      exact ⟨_, _, _, _, rfl, hlist, rfl, rfl, rfl, rfl, rfl, rfl, rfl, rfl, rfl, rfl,
        by show ¬(s.nextTxnId = s.nextTxnId + 1); omega⟩
  · intro input acct tid hfa hty htr hta
    obtain ⟨hac, htx, hid⟩ := createReopen_frame s input.transactionDate input.bankAccountId
    have hany : s.accounts.any (fun x => x.id == input.bankAccountId) = true :=
      any_of_find?_some (fun x => x.id == input.bankAccountId) s.accounts acct
        (show s.accounts.find? (fun x => x.id == input.bankAccountId) = some acct from hfa)
    unfold createTransaction
    rw [hfa]
    simp only [hty, htr, addTransaction, setTransactionRelated, htx, hid, hac]
    by_cases hd : input.transactionDate = today
    · simp only [if_pos hd]
      rw [setAccountBalance_ok_fields _ _ _ _ _ _ hany]
      simp only [bind, Except.bind]
      try dsimp only
      simp only [findAccount]
      try dsimp only
      rw [findAccount_map_set]
      rw [show s.accounts.find? (fun x => x.id == tid) = none from hta]
      simp [throw, throwThe, MonadExceptOf.throw]
    · simp only [if_neg hd]
      simp only [bind, Except.bind, pure, Except.pure]
      try dsimp only
      simp only [findAccount]
      try dsimp only
      rw [show s.accounts.find? (fun x => x.id == tid) = none from hta]
      simp [throw, throwThe, MonadExceptOf.throw]
  · intro txId uid txn rid res s' hfind hrel hrid h
    have hs1tx : (if txn.transactionDate < today then
        reopenIfClosed s txn.transactionDate txn.bankAccountId else s).transactions =
        s.transactions := by
      by_cases hh : txn.transactionDate < today
      · simp only [if_pos hh]
        exact (reopenIfClosed_frame s txn.transactionDate txn.bankAccountId).2.1
      · simp only [if_neg hh]
    unfold deleteTransaction at h
    simp only [hfind] at h
    cases hfa : findAccount s txn.bankAccountId with
    | none => simp [hfa, throw, throwThe, MonadExceptOf.throw] at h
    | some acct =>
        simp only [hfa, hrel] at h
        by_cases htod : txn.transactionDate = today
        · simp only [if_pos htod] at h
          by_cases hng : (if txn.type = TransactionType.DEPOSIT then
              acct.currentBalance - txn.amount else acct.currentBalance + txn.amount) < 0
          · rw [if_pos hng] at h
            simp [bind, Except.bind, throw, throwThe, MonadExceptOf.throw] at h
          · rw [if_neg hng] at h
            cases hsb : setAccountBalance
                (if txn.transactionDate < today then
                  reopenIfClosed s txn.transactionDate txn.bankAccountId else s)
                txn.bankAccountId
                (if txn.type = TransactionType.DEPOSIT then
                  acct.currentBalance - txn.amount else acct.currentBalance + txn.amount) with
            | error e =>
                rw [hsb] at h
                simp [bind, Except.bind] at h
            | ok s2 =>
                rw [hsb] at h
                simp only [bind, Except.bind, removeTransaction] at h
                have hs2tx : s2.transactions = s.transactions := by
                  rw [(setAccountBalance_ok_inv _ _ _ _ hsb).1]
                  exact hs1tx
                rw [hs2tx] at h
                rw [if_pos hrid] at h
                simp only [pure, Except.pure] at h
                injection h with h'
                injection h' with hres hstate
                rw [← hstate]
        · simp only [if_neg htod] at h
          simp only [bind, Except.bind, pure, Except.pure, removeTransaction] at h
          rw [hs1tx] at h
          rw [if_pos hrid] at h
          injection h with h'
          injection h' with hres hstate
          rw [← hstate]

/-- Two accounts for a concrete transfer. -/
def transferPairState : LedgerState :=
  { accounts := [{ id := "A", accountNumber := "111", currentBalance := 1000 },
                 { id := "B", accountNumber := "222", currentBalance := 500 }]
    transactions := []
    dailyBalances := []
    nextTxnId := 0 }

def transferPairInput : CreateTransactionInput :=
  { transactionDate := 0, transactionTime := "09:00", type := TransactionType.TRANSFER,
    amount := 200, bankAccountId := "A", categoryId := none, note := none,
    transferToBankAccountId := some "B", createdBy := "u" }

/-- Witness for C6 (amended): a transfer of 200 from A to B appends
exactly the two cross-referenced rows. -/
theorem transferPair_operations_witness :
    ∃ res s' mainRow relRow,
      createTransaction 0 transferPairState transferPairInput = Except.ok (res, s') ∧
      s'.transactions = transferPairState.transactions ++ [mainRow, relRow] ∧
      mainRow.type = TransactionType.TRANSFER ∧
      relRow.type = TransactionType.DEPOSIT ∧
      mainRow.bankAccountId = transferPairInput.bankAccountId ∧
      relRow.bankAccountId = "B" ∧
      mainRow.amount = transferPairInput.amount ∧
      relRow.amount = transferPairInput.amount ∧
      mainRow.transactionDate = transferPairInput.transactionDate ∧
      relRow.transactionDate = transferPairInput.transactionDate ∧
      mainRow.relatedTransactionId = some relRow.id ∧
      relRow.relatedTransactionId = some mainRow.id ∧
      ¬(mainRow.id = relRow.id) :=
  (transferPair_operations 0 transferPairState).1 transferPairInput
    ⟨"A", "111", 1000⟩ ⟨"B", "222", 500⟩ "B"
    (by with_unfolding_all decide) rfl rfl (by with_unfolding_all decide)
    (by intro t ht; simp [transferPairState] at ht)

/-! ## Facts about bulk historical updates -/

/-- Membership in a JS-Set insertion. -/
theorem mem_insertUniq {α : Type} [BEq α] [LawfulBEq α] (xs : List α) (x y : α) :
    y ∈ insertUniq xs x ↔ y ∈ xs ∨ y = x := by
  unfold insertUniq
  by_cases h : xs.contains x
  · rw [if_pos h]
    have hx : x ∈ xs := by simpa using h
    constructor
    · exact Or.inl
    · rintro (hy | rfl)
      · exact hy
      · exact hx
  · rw [if_neg h]
    simp

/-- The identifying fields a bulk field-update can never change. -/
def txnKeyFields (t : Transaction) : ℕ × ℤ × String :=
  (t.id, t.transactionDate, t.bankAccountId)

theorem applyTransactionUpdates_keyFields (t : Transaction) (u : UpdateTransactionInput) :
    txnKeyFields (applyTransactionUpdates t u) = txnKeyFields t := rfl

/-- Lists with equal key-field projections agree on find?-by-id, up to key
fields. -/
theorem find?_congr_keyFields (l₁ : List Transaction) (k : ℕ) :
    ∀ l₂ : List Transaction, l₁.map txnKeyFields = l₂.map txnKeyFields →
    (l₁.find? (fun t => t.id == k)).map txnKeyFields =
      (l₂.find? (fun t => t.id == k)).map txnKeyFields := by
  induction l₁ with
  | nil =>
      intro l₂ h
      cases l₂ with
      | nil => rfl
      | cons b bs => simp at h
  | cons a as ih =>
      intro l₂ h
      cases l₂ with
      | nil => simp at h
      | cons b bs =>
          simp only [List.map_cons, List.cons.injEq] at h
          obtain ⟨hab, hrest⟩ := h
          have hid : a.id = b.id := congrArg (fun p => p.1) hab
          by_cases hk : ((fun t : Transaction => t.id == k) a) = true
          · have hk2 : ((fun t : Transaction => t.id == k) b) = true := by
              simp only []
              rw [← hid]
              exact hk
            rw [@List.find?_cons_of_pos Transaction (fun t => t.id == k) a as hk,
              @List.find?_cons_of_pos Transaction (fun t => t.id == k) b bs hk2]
            simpa using hab
          · have hk2 : ¬((fun t : Transaction => t.id == k) b) = true := by
              simp only []
              rw [← hid]
              exact hk
            rw [@List.find?_cons_of_neg Transaction (fun t => t.id == k) a as hk,
              @List.find?_cons_of_neg Transaction (fun t => t.id == k) b bs hk2]
            exact ih bs hrest

/-- Date of the row an update refers to (`none` when the id is unknown). -/
def foundDate (l : List Transaction) (k : ℕ) : Option ℤ :=
  (l.find? (fun t => t.id == k)).map (fun t => t.transactionDate)

/-- Account of the row an update refers to. -/
def foundAccount (l : List Transaction) (k : ℕ) : Option String :=
  (l.find? (fun t => t.id == k)).map (fun t => t.bankAccountId)

theorem foundDate_congr (l₁ l₂ : List Transaction) (k : ℕ)
    (h : l₁.map txnKeyFields = l₂.map txnKeyFields) :
    foundDate l₁ k = foundDate l₂ k := by
  have h2 := congrArg (Option.map (fun p : ℕ × ℤ × String => p.2.1))
    (find?_congr_keyFields l₁ k l₂ h)
  simpa [Option.map_map, foundDate, Function.comp, txnKeyFields] using h2

theorem foundAccount_congr (l₁ l₂ : List Transaction) (k : ℕ)
    (h : l₁.map txnKeyFields = l₂.map txnKeyFields) :
    foundAccount l₁ k = foundAccount l₂ k := by
  have h2 := congrArg (Option.map (fun p : ℕ × ℤ × String => p.2.2))
    (find?_congr_keyFields l₁ k l₂ h)
  simpa [Option.map_map, foundAccount, Function.comp, txnKeyFields] using h2

/-- One bulk step touches neither accounts nor daily balances nor the id
counter, and preserves every row's key fields. -/
theorem bulkUpdateStep_frame (acc : LedgerState × List ℤ × List String)
    (u : ℕ × UpdateTransactionInput) :
    ((bulkUpdateStep acc u).1.accounts = acc.1.accounts) ∧
    ((bulkUpdateStep acc u).1.dailyBalances = acc.1.dailyBalances) ∧
    ((bulkUpdateStep acc u).1.nextTxnId = acc.1.nextTxnId) ∧
    ((bulkUpdateStep acc u).1.transactions.map txnKeyFields =
      acc.1.transactions.map txnKeyFields) := by
  unfold bulkUpdateStep
  cases hf : acc.1.transactions.find? (fun t => t.id == u.1) with
  | none => exact ⟨rfl, rfl, rfl, rfl⟩
  | some txn =>
      refine ⟨rfl, rfl, rfl, ?_⟩
      simp only [List.map_map]
      apply List.map_congr_left
      intro t ht
      by_cases hx : (t.id == u.1) = true
      · simp [Function.comp, hx]
        rfl
      · simp [Function.comp, hx]

/-- The whole first loop touches neither accounts nor daily balances nor
the id counter, and preserves key fields. -/
theorem bulkFold_frame (updates : List (ℕ × UpdateTransactionInput))
    (acc : LedgerState × List ℤ × List String) :
    ((updates.foldl bulkUpdateStep acc).1.accounts = acc.1.accounts) ∧
    ((updates.foldl bulkUpdateStep acc).1.dailyBalances = acc.1.dailyBalances) ∧
    ((updates.foldl bulkUpdateStep acc).1.transactions.map txnKeyFields =
      acc.1.transactions.map txnKeyFields) := by
  induction updates generalizing acc with
  | nil => exact ⟨rfl, rfl, rfl⟩
  | cons u rest ih =>
      rw [List.foldl_cons]
      obtain ⟨h1, h2, h4⟩ := ih (bulkUpdateStep acc u)
      obtain ⟨g1, g2, g3, g4⟩ := bulkUpdateStep_frame acc u
      exact ⟨h1.trans g1, h2.trans g2, h4.trans g4⟩

theorem bulkUpdateStep_of_found (acc : LedgerState × List ℤ × List String)
    (u : ℕ × UpdateTransactionInput) (txn : Transaction)
    (hf : acc.1.transactions.find? (fun t => t.id == u.1) = some txn) :
    bulkUpdateStep acc u =
      ({ acc.1 with
         transactions := acc.1.transactions.map (fun t =>
           if t.id == u.1 then applyTransactionUpdates t u.2 else t) },
       insertUniq acc.2.1 txn.transactionDate,
       insertUniq acc.2.2 txn.bankAccountId) := by
  unfold bulkUpdateStep
  rw [hf]

theorem bulkUpdateStep_of_missing (acc : LedgerState × List ℤ × List String)
    (u : ℕ × UpdateTransactionInput)
    (hf : acc.1.transactions.find? (fun t => t.id == u.1) = none) :
    bulkUpdateStep acc u = acc := by
  unfold bulkUpdateStep
  rw [hf]

/-- Membership in the two collected sets after the first loop: exactly the
dates and accounts of transactions some update actually found. -/
theorem bulkFold_mem (updates : List (ℕ × UpdateTransactionInput)) :
    ∀ acc : LedgerState × List ℤ × List String, ∀ d : ℤ, ∀ aid : String,
    (d ∈ (updates.foldl bulkUpdateStep acc).2.1 ↔
      d ∈ acc.2.1 ∨ ∃ u ∈ updates, foundDate acc.1.transactions u.1 = some d) ∧
    (aid ∈ (updates.foldl bulkUpdateStep acc).2.2 ↔
      aid ∈ acc.2.2 ∨ ∃ u ∈ updates, foundAccount acc.1.transactions u.1 = some aid) := by
  induction updates with
  | nil =>
      intro acc d aid
      simp
  | cons u rest ih =>
      intro acc d aid
      rw [List.foldl_cons]
      have hframe := (bulkUpdateStep_frame acc u).2.2.2
      have hcd : ∀ k, foundDate (bulkUpdateStep acc u).1.transactions k =
          foundDate acc.1.transactions k := fun k =>
        foundDate_congr _ _ k hframe
      have hca : ∀ k, foundAccount (bulkUpdateStep acc u).1.transactions k =
          foundAccount acc.1.transactions k := fun k =>
        foundAccount_congr _ _ k hframe
      obtain ⟨ihd, iha⟩ := ih (bulkUpdateStep acc u) d aid
      constructor
      · rw [ihd]
        constructor
        · rintro (hmem | ⟨v, hv, hfd⟩)
          · cases hf : acc.1.transactions.find? (fun t => t.id == u.1) with
            | none =>
                rw [bulkUpdateStep_of_missing acc u hf] at hmem
                exact Or.inl hmem
            | some txn =>
                rw [bulkUpdateStep_of_found acc u txn hf] at hmem
                rcases (mem_insertUniq acc.2.1 txn.transactionDate d).mp hmem with h | rfl
                · exact Or.inl h
                · refine Or.inr ⟨u, List.mem_cons_self u rest, ?_⟩
                  rw [foundDate, hf]
                  rfl
          · exact Or.inr ⟨v, List.mem_cons_of_mem u hv, (hcd v.1) ▸ hfd⟩
        · rintro (hmem | ⟨v, hv, hfd⟩)
          · left
            cases hf : acc.1.transactions.find? (fun t => t.id == u.1) with
            | none =>
                rw [bulkUpdateStep_of_missing acc u hf]
                exact hmem
            | some txn =>
                rw [bulkUpdateStep_of_found acc u txn hf]
                exact (mem_insertUniq acc.2.1 txn.transactionDate d).mpr (Or.inl hmem)
          · rcases List.mem_cons.mp hv with rfl | hv'
            · left
              rw [foundDate] at hfd
              cases hf : acc.1.transactions.find? (fun t => t.id == v.1) with
              | none =>
                  rw [hf] at hfd
                  simp at hfd
              | some txn =>
                  rw [hf] at hfd
                  have hfd2 : txn.transactionDate = d := by simpa using hfd
                  rw [bulkUpdateStep_of_found acc v txn hf]
                  exact (mem_insertUniq acc.2.1 txn.transactionDate d).mpr (Or.inr hfd2.symm)
            · exact Or.inr ⟨v, hv', (hcd v.1).symm ▸ hfd⟩
      · rw [iha]
        constructor
        · rintro (hmem | ⟨v, hv, hfa⟩)
          · cases hf : acc.1.transactions.find? (fun t => t.id == u.1) with
            | none =>
                rw [bulkUpdateStep_of_missing acc u hf] at hmem
                exact Or.inl hmem
            | some txn =>
                rw [bulkUpdateStep_of_found acc u txn hf] at hmem
                rcases (mem_insertUniq acc.2.2 txn.bankAccountId aid).mp hmem with h | rfl
                · exact Or.inl h
                · refine Or.inr ⟨u, List.mem_cons_self u rest, ?_⟩
                  rw [foundAccount, hf]
                  rfl
          · exact Or.inr ⟨v, List.mem_cons_of_mem u hv, (hca v.1) ▸ hfa⟩
        · rintro (hmem | ⟨v, hv, hfa⟩)
          · left
            cases hf : acc.1.transactions.find? (fun t => t.id == u.1) with
            | none =>
                rw [bulkUpdateStep_of_missing acc u hf]
                exact hmem
            | some txn =>
                rw [bulkUpdateStep_of_found acc u txn hf]
                exact (mem_insertUniq acc.2.2 txn.bankAccountId aid).mpr (Or.inl hmem)
          · rcases List.mem_cons.mp hv with rfl | hv'
            · left
              rw [foundAccount] at hfa
              cases hf : acc.1.transactions.find? (fun t => t.id == v.1) with
              | none =>
                  rw [hf] at hfa
                  simp at hfa
              | some txn =>
                  rw [hf] at hfa
                  have hfa2 : txn.bankAccountId = aid := by simpa using hfa
                  rw [bulkUpdateStep_of_found acc v txn hf]
                  exact (mem_insertUniq acc.2.2 txn.bankAccountId aid).mpr (Or.inr hfa2.symm)
            · exact Or.inr ⟨v, hv', (hca v.1).symm ▸ hfa⟩

/-- The effect of the reopen write on a record, as a function: flip a
closed record open (clearing `closedBy`), leave an open one alone. -/
def reopenedView (db : DailyBalance) : DailyBalance :=
  if db.isClosed then { db with isClosed := false, closedBy := none } else db

theorem reopenedView_idem (db : DailyBalance) :
    reopenedView (reopenedView db) = reopenedView db := by
  unfold reopenedView
  by_cases h : db.isClosed = true <;> simp [h]

theorem reopenedView_comp : reopenedView ∘ reopenedView = reopenedView :=
  funext reopenedView_idem

theorem reopenIfClosed_of_some (s : LedgerState) (dd : ℤ) (a : String)
    (db : DailyBalance) (h : findDailyBalance s dd a = some db) :
    reopenIfClosed s dd a =
      (if db.isClosed then setDailyBalanceOpen s dd a else s) := by
  unfold reopenIfClosed
  rw [h]

theorem reopenIfClosed_of_none (s : LedgerState) (dd : ℤ) (a : String)
    (h : findDailyBalance s dd a = none) :
    reopenIfClosed s dd a = s := by
  unfold reopenIfClosed
  rw [h]

/-- What `reopenIfClosed` does to every lookup: the targeted key is mapped
through `reopenedView`, every other key is untouched. -/
theorem find_reopenIfClosed (s : LedgerState) (dd : ℤ) (a : String)
    (d : ℤ) (aid : String) :
    findDailyBalance (reopenIfClosed s dd a) d aid =
      (if d = dd ∧ aid = a then (findDailyBalance s d aid).map reopenedView
       else findDailyBalance s d aid) := by
  by_cases hk : d = dd ∧ aid = a
  · obtain ⟨rfl, rfl⟩ := hk
    rw [if_pos ⟨rfl, rfl⟩]
    cases h : findDailyBalance s d aid with
    | none => rw [reopenIfClosed_of_none s d aid h, h]; rfl
    | some db =>
        rw [reopenIfClosed_of_some s d aid db h]
        by_cases hc : db.isClosed = true
        · rw [if_pos hc, findDailyBalance_setOpen_same, h]
          simp [reopenedView, hc]
        · rw [if_neg hc, h]
          simp [reopenedView, hc]
  · rw [if_neg hk]
    cases h : findDailyBalance s dd a with
    | none => rw [reopenIfClosed_of_none s dd a h]
    | some db =>
        rw [reopenIfClosed_of_some s dd a db h]
        by_cases hc : db.isClosed = true
        · rw [if_pos hc]
          exact findDailyBalance_setOpen_other s dd a d aid hk
        · rw [if_neg hc]

/-- The inner date loop of the second bulk phase, characterized on
lookups. -/
theorem datesFold_find (dates : List ℤ) (a : String) :
    ∀ s : LedgerState, ∀ d : ℤ, ∀ aid : String,
    findDailyBalance (dates.foldl (fun st date => reopenIfClosed st date a) s) d aid =
      (if d ∈ dates ∧ aid = a then (findDailyBalance s d aid).map reopenedView
       else findDailyBalance s d aid) := by
  induction dates with
  | nil =>
      intro s d aid
      simp
  | cons dd rest ih =>
      intro s d aid
      rw [List.foldl_cons, ih (reopenIfClosed s dd a) d aid]
      by_cases hmem : d ∈ rest ∧ aid = a
      · rw [if_pos hmem]
        rw [if_pos ⟨List.mem_cons_of_mem dd hmem.1, hmem.2⟩]
        rw [find_reopenIfClosed]
        by_cases hd : d = dd ∧ aid = a
        · rw [if_pos hd]
          rw [Option.map_map]
          cases findDailyBalance s d aid with
          | none => rfl
          | some db => simp [Function.comp, reopenedView_idem]
        · rw [if_neg hd]
      · rw [if_neg hmem]
        rw [find_reopenIfClosed]
        by_cases hd : d = dd ∧ aid = a
        · rw [if_pos hd]
          rw [if_pos ⟨hd.1 ▸ List.mem_cons_self dd rest, hd.2⟩]
        · rw [if_neg hd]
          rw [if_neg (by rintro ⟨hdm, rfl⟩
                         rcases List.mem_cons.mp hdm with rfl | hdm2
                         · exact hd ⟨rfl, rfl⟩
                         · exact hmem ⟨hdm2, rfl⟩)]

/-- The whole second bulk phase, characterized on lookups: exactly the
records in the Cartesian product of collected dates and collected accounts
are flipped open. -/
theorem bulkReopen_find (accounts : List String) (dates : List ℤ) :
    ∀ s : LedgerState, ∀ d : ℤ, ∀ aid : String,
    findDailyBalance (bulkReopenAffected s accounts dates) d aid =
      (if d ∈ dates ∧ aid ∈ accounts then (findDailyBalance s d aid).map reopenedView
       else findDailyBalance s d aid) := by
  induction accounts with
  | nil =>
      intro s d aid
      simp [bulkReopenAffected]
  | cons a rest ih =>
      intro s d aid
      have hstep : bulkReopenAffected s (a :: rest) dates =
          bulkReopenAffected (dates.foldl (fun st date => reopenIfClosed st date a) s)
            rest dates := rfl
      rw [hstep, ih _ d aid, datesFold_find dates a s d aid]
      by_cases hd : d ∈ dates <;> by_cases ha : aid = a <;> by_cases hr : aid ∈ rest <;>
        simp [hd, ha, hr, List.mem_cons, Option.map_map, reopenedView_comp]

/-- The second bulk phase never touches accounts, transactions or the id
counter. -/
theorem bulkReopen_frame (accounts : List String) (dates : List ℤ) :
    ∀ s : LedgerState,
    (bulkReopenAffected s accounts dates).accounts = s.accounts ∧
    (bulkReopenAffected s accounts dates).transactions = s.transactions ∧
    (bulkReopenAffected s accounts dates).nextTxnId = s.nextTxnId := by
  have hinner : ∀ (a : String) (ds : List ℤ) (s : LedgerState),
      (ds.foldl (fun st date => reopenIfClosed st date a) s).accounts = s.accounts ∧
      (ds.foldl (fun st date => reopenIfClosed st date a) s).transactions = s.transactions ∧
      (ds.foldl (fun st date => reopenIfClosed st date a) s).nextTxnId = s.nextTxnId := by
    intro a ds
    induction ds with
    | nil => intro s; exact ⟨rfl, rfl, rfl⟩
    | cons dd rest ih =>
        intro s
        rw [List.foldl_cons]
        obtain ⟨h1, h2, h3⟩ := ih (reopenIfClosed s dd a)
        obtain ⟨g1, g2, g3⟩ := reopenIfClosed_frame s dd a
        exact ⟨h1.trans g1, h2.trans g2, h3.trans g3⟩
  induction accounts with
  | nil => intro s; exact ⟨rfl, rfl, rfl⟩
  | cons a rest ih =>
      intro s
      have hstep : bulkReopenAffected s (a :: rest) dates =
          bulkReopenAffected (dates.foldl (fun st date => reopenIfClosed st date a) s)
            rest dates := rfl
      rw [hstep]
      obtain ⟨h1, h2, h3⟩ := ih (dates.foldl (fun st date => reopenIfClosed st date a) s)
      obtain ⟨g1, g2, g3⟩ := hinner a dates s
      exact ⟨h1.trans g1, h2.trans g2, h3.trans g3⟩

theorem findDailyBalance_eq_of_db (s s' : LedgerState)
    (h : s'.dailyBalances = s.dailyBalances) (d : ℤ) (aid : String) :
    findDailyBalance s' d aid = findDailyBalance s d aid := by
  unfold findDailyBalance
  rw [h]

/-- Two transactions on different (date, account) pairs and one closed day
that neither of them belongs to. -/
def bulkCartesianState : LedgerState :=
  { accounts := [
      { id := "A", accountNumber := "111", currentBalance := 1000 },
      { id := "B", accountNumber := "222", currentBalance := 2000 }],
    transactions := [
      { id := 1, transactionDate := 5, transactionTime := "09:00",
        type := TransactionType.DEPOSIT, amount := 100, balanceAfter := 1100,
        note := none, bankAccountId := "A", categoryId := none,
        createdBy := "u1", relatedTransactionId := none },
      { id := 2, transactionDate := 6, transactionTime := "10:00",
        type := TransactionType.WITHDRAWAL, amount := 50, balanceAfter := 1950,
        note := none, bankAccountId := "B", categoryId := none,
        createdBy := "u1", relatedTransactionId := none }],
    dailyBalances := [
      { balanceDate := 5, bankAccountId := "B",
        openingBalance := 2000, closingBalance := 2000, actualBalance := 2000,
        totalDeposits := 0, totalWithdrawals := 0, totalExpenses := 0,
        totalTransfers := 0, unknownDeposits := 0, profit := 0,
        isClosed := true, closedBy := some "mgr" }],
    nextTxnId := 3 }

def bulkCartesianUpdates : List (ℕ × UpdateTransactionInput) :=
  [(1, { amount := some 250, note := none, categoryId := none }),
   (2, { amount := none, note := some "fixed", categoryId := none })]

/-- C9 counterexample: the bulk update touches transaction 1 at (5, "A")
and transaction 2 at (6, "B"); the closed day (5, "B") belongs to no
updated transaction, yet the call flips it open — the code reopens the
Cartesian product of the collected dates and collected accounts. -/
theorem bulk_reopen_outside_updated_pairs :
    (Option.map (fun db => db.isClosed)
      (findDailyBalance bulkCartesianState 5 "B") = some true) ∧
    (Option.map (fun db => db.isClosed)
      (findDailyBalance
        (bulkUpdateHistoricalTransactions bulkCartesianState bulkCartesianUpdates
          "admin").2 5 "B") = some false) ∧
    (bulkCartesianState.transactions.all
      (fun t => !(t.transactionDate == 5 && t.bankAccountId == "B")) = true) ∧
    ((bulkUpdateHistoricalTransactions bulkCartesianState bulkCartesianUpdates
        "admin").2.accounts = bulkCartesianState.accounts) := by
  refine ⟨?_, ?_, ?_, ?_⟩ <;> with_unfolding_all decide

/-- C9: bulkUpdateHistorical(updates[], actorId) applies each field update
without touching any account balance and reports `updates.length`; the
collected affected dates and affected bank accounts are exactly the dates,
respectively the accounts, of the transactions the updates found; and the
DailyBalance records flipped from closed to open are exactly the closed
records in the CARTESIAN PRODUCT of those two sets — a (date, account)
combination that no updated transaction belongs to is still reopened when
its date and its account each come from different updated transactions.
Every flipped record keeps all its stored figures (`reopenedView` only
clears `isClosed`/`closedBy`). -/
theorem bulk_product_reopen (s : LedgerState)
    (updates : List (ℕ × UpdateTransactionInput)) (uid : String) :
    ((bulkUpdateHistoricalTransactions s updates uid).2.accounts = s.accounts) ∧
    ((bulkUpdateHistoricalTransactions s updates uid).1.updatedTransactions =
      updates.length) ∧
    (∀ d : ℤ,
      d ∈ (bulkUpdateHistoricalTransactions s updates uid).1.affectedDates ↔
      ∃ u ∈ updates, foundDate s.transactions u.1 = some d) ∧
    (∀ aid : String,
      aid ∈ (bulkUpdateHistoricalTransactions s updates uid).1.affectedBankAccounts ↔
      ∃ u ∈ updates, foundAccount s.transactions u.1 = some aid) ∧
    (∀ (d : ℤ) (aid : String),
      findDailyBalance (bulkUpdateHistoricalTransactions s updates uid).2 d aid =
        (if d ∈ (bulkUpdateHistoricalTransactions s updates uid).1.affectedDates ∧
            aid ∈ (bulkUpdateHistoricalTransactions s updates uid).1.affectedBankAccounts
         then (findDailyBalance s d aid).map reopenedView
         else findDailyBalance s d aid)) := by
  have hsplit : bulkUpdateHistoricalTransactions s updates uid =
      ({ updatedTransactions := updates.length,
         affectedDates := (bulkApplyUpdates s updates).2.1,
         affectedBankAccounts := (bulkApplyUpdates s updates).2.2 },
       bulkReopenAffected (bulkApplyUpdates s updates).1
         (bulkApplyUpdates s updates).2.2 (bulkApplyUpdates s updates).2.1) := by
    unfold bulkUpdateHistoricalTransactions
    rfl
  have hfold := bulkFold_frame updates (s, [], [])
  have hacc1 : (bulkApplyUpdates s updates).1.accounts = s.accounts := hfold.1
  have hdb1 : (bulkApplyUpdates s updates).1.dailyBalances = s.dailyBalances :=
    hfold.2.1
  refine ⟨?_, ?_, ?_, ?_, ?_⟩
  · rw [hsplit]
    exact ((bulkReopen_frame (bulkApplyUpdates s updates).2.2
      (bulkApplyUpdates s updates).2.1 (bulkApplyUpdates s updates).1).1).trans hacc1
  · rw [hsplit]
  · intro d
    rw [hsplit]
    have h := (bulkFold_mem updates (s, [], []) d "").1
    simpa using h
  · intro aid
    rw [hsplit]
    have h := (bulkFold_mem updates (s, [], []) 0 aid).2
    simpa using h
  · intro d aid
    rw [hsplit]
    have h := bulkReopen_find (bulkApplyUpdates s updates).2.2
      (bulkApplyUpdates s updates).2.1 (bulkApplyUpdates s updates).1 d aid
    rw [findDailyBalance_eq_of_db s (bulkApplyUpdates s updates).1 hdb1 d aid] at h
    exact h

/-! ## IEEE-754 binary64 model of the JavaScript number arithmetic -/

/-- Bounded-fuel binary logarithm (the fuel covers every magnitude a
binary64 exponent can reach); evaluates in logarithmically many steps. -/
def natLog2F : ℕ → ℕ → ℕ
  | 0, _ => 0
  | fuel+1, n => if 2 ≤ n then natLog2F fuel (n / 2) + 1 else 0

/-- `⌊log₂ n⌋` for `n ≥ 1` (and 0 at 0). -/
def natLog2 (n : ℕ) : ℕ := natLog2F 1100 n

/-- Round a rational to the nearest integer, ties to even. -/
def roundTiesEven (q : ℚ) : ℤ :=
  if q - ⌊q⌋ < 1/2 then ⌊q⌋
  else if 1/2 < q - ⌊q⌋ then ⌊q⌋ + 1
  else if ⌊q⌋ % 2 = 0 then ⌊q⌋ else ⌊q⌋ + 1

/-- `2 ^ e` as a rational, for an integer exponent. -/
def qpow2 (e : ℤ) : ℚ :=
  if 0 ≤ e then ((2 ^ e.toNat : ℕ) : ℚ) else 1 / ((2 ^ (-e).toNat : ℕ) : ℚ)

/-- The floor of the base-2 logarithm of a positive rational. -/
def ratFloorLog2 (q : ℚ) : ℤ :=
  let e0 : ℤ := (natLog2 q.num.natAbs : ℤ) - (natLog2 q.den : ℤ)
  if qpow2 e0 ≤ q then e0 else e0 - 1

/-- Round a rational to the nearest IEEE-754 binary64 value (53-bit
significand, round-to-nearest ties-to-even; the exponent range is treated
as unbounded, which is faithful for the magnitudes a ledger holds). -/
def f64round (q : ℚ) : ℚ :=
  if q = 0 then 0
  else
    qpow2 (ratFloorLog2 |q| - 52) *
      (roundTiesEven (q / qpow2 (ratFloorLog2 |q| - 52)) : ℚ)

/-- Binary64 `+`: exact sum, then one rounding. -/
def f64add (a b : ℚ) : ℚ := f64round (a + b)

/-- Binary64 `-`: exact difference, then one rounding. -/
def f64sub (a b : ℚ) : ℚ := f64round (a - b)

/-- One step of the `transactions.reduce` as JavaScript executes it:
`Number(transaction.amount)` converts the Decimal to a binary64 value and
`+=` rounds the running total once per addition. -/
def accumulateTotalsF64 (acc : Totals) (t : Transaction) : Totals :=
  match t.type with
  | TransactionType.DEPOSIT =>
      { acc with totalDeposits := f64add acc.totalDeposits (f64round t.amount) }
  | TransactionType.WITHDRAWAL =>
      { acc with totalWithdrawals := f64add acc.totalWithdrawals (f64round t.amount) }
  | TransactionType.EXPENSE =>
      { acc with totalExpenses := f64add acc.totalExpenses (f64round t.amount) }
  | TransactionType.TRANSFER =>
      { acc with totalTransfers := f64add acc.totalTransfers (f64round t.amount) }

/-- `DailyBalanceService.calculateDailyBalance` with the arithmetic the
JavaScript engine actually performs: `Number(...)` conversions and
binary64 additions and subtractions, one rounding per operation, the
closing-balance expression evaluated left to right. -/
def calculateDailyBalanceF64 (s : LedgerState) (bankAccountId : String) (date : ℤ) :
    CalcResult :=
  let openingBalance : ℚ :=
    match findDailyBalance s (date - 1) bankAccountId with
    | some previousBalance => f64round previousBalance.actualBalance
    | none => 0
  let transactions := dayTransactions s bankAccountId date
  let totals := transactions.foldl accumulateTotalsF64 ⟨0, 0, 0, 0⟩
  let closingBalance :=
    f64sub (f64sub (f64sub (f64add openingBalance totals.totalDeposits)
      totals.totalWithdrawals) totals.totalExpenses) totals.totalTransfers
  { openingBalance := openingBalance
    closingBalance := closingBalance
    totalDeposits := totals.totalDeposits
    totalWithdrawals := totals.totalWithdrawals
    totalExpenses := totals.totalExpenses
    totalTransfers := totals.totalTransfers
    transactionCount := transactions.length }

/-- Evaluation scaffold for `f64round` at a concrete argument: feed the
exponent and the rounded mantissa explicitly so the pieces can each be
decided. -/
theorem f64round_eval (q m : ℚ) (e z : ℤ) (hq : q ≠ 0)
    (he : ratFloorLog2 |q| - 52 = e)
    (hz : roundTiesEven (q / qpow2 e) = z)
    (hm : qpow2 e * (z : ℚ) = m) :
    f64round q = m := by
  rw [f64round, if_neg hq, he, hz, hm]

/-- A deposit of 0.10. -/
def driftTx1 : Transaction :=
  { id := 1, transactionDate := 7, transactionTime := "09:00",
    type := TransactionType.DEPOSIT, amount := 1/10, balanceAfter := 1/10,
    note := none, bankAccountId := "A", categoryId := none,
    createdBy := "u1", relatedTransactionId := none }

/-- A deposit of 0.20. -/
def driftTx2 : Transaction :=
  { id := 2, transactionDate := 7, transactionTime := "10:00",
    type := TransactionType.DEPOSIT, amount := 1/5, balanceAfter := 3/10,
    note := none, bankAccountId := "A", categoryId := none,
    createdBy := "u1", relatedTransactionId := none }

/-- An account with two same-day deposits of 0.10 and 0.20 and no prior
record. -/
def driftState : LedgerState :=
  { accounts := [{ id := "A", accountNumber := "111", currentBalance := 0 }],
    transactions := [driftTx1, driftTx2],
    dailyBalances := [],
    nextTxnId := 3 }

/-- C2 counterexample to exactness: deposits of 0.10 and 0.20 close the
day at the binary64 value 0.30000000000000004 (5404319552844596 / 2^54),
not at the exact decimal 0.30 the claim's last clause promises. -/
theorem calculate_float_drift :
    ((calculateDailyBalance driftState "A" 7).closingBalance = 3/10) ∧
    ((calculateDailyBalanceF64 driftState "A" 7).closingBalance =
      5404319552844596 / 2 ^ 54) ∧
    ((calculateDailyBalanceF64 driftState "A" 7).closingBalance ≠
      (calculateDailyBalance driftState "A" 7).closingBalance) := by
  have ha : f64round (1/10 : ℚ) = 3602879701896397 / 36028797018963968 :=
    f64round_eval (1/10) (3602879701896397 / 36028797018963968) (-56) 7205759403792794
      (by norm_num) (by with_unfolding_all decide) (by with_unfolding_all decide)
      (by norm_num [qpow2, show Int.toNat 56 = 56 from rfl])
  have hb : f64round (1/5 : ℚ) = 3602879701896397 / 18014398509481984 :=
    f64round_eval (1/5) (3602879701896397 / 18014398509481984) (-55) 7205759403792794
      (by norm_num) (by with_unfolding_all decide) (by with_unfolding_all decide)
      (by norm_num [qpow2, show Int.toNat 55 = 55 from rfl])
  have hra : f64round (3602879701896397 / 36028797018963968 : ℚ) =
      3602879701896397 / 36028797018963968 :=
    f64round_eval (3602879701896397 / 36028797018963968)
      (3602879701896397 / 36028797018963968) (-56) 7205759403792794
      (by norm_num) (by with_unfolding_all decide) (by with_unfolding_all decide)
      (by norm_num [qpow2, show Int.toNat 56 = 56 from rfl])
  have hrD : f64round (5404319552844596 / 18014398509481984 : ℚ) =
      5404319552844596 / 18014398509481984 :=
    f64round_eval (5404319552844596 / 18014398509481984)
      (5404319552844596 / 18014398509481984) (-54) 5404319552844596
      (by norm_num) (by with_unfolding_all decide) (by with_unfolding_all decide)
      (by norm_num [qpow2, show Int.toNat 54 = 54 from rfl])
  have h0a : f64add 0 (3602879701896397 / 36028797018963968) =
      3602879701896397 / 36028797018963968 := by
    rw [f64add, zero_add]
    exact hra
  have hsum : f64add (3602879701896397 / 36028797018963968)
      (3602879701896397 / 18014398509481984) =
      5404319552844596 / 18014398509481984 := by
    rw [f64add, show (3602879701896397 / 36028797018963968 : ℚ) +
      3602879701896397 / 18014398509481984 =
      10808639105689191 / 36028797018963968 from by norm_num]
    exact f64round_eval (10808639105689191 / 36028797018963968)
      (5404319552844596 / 18014398509481984) (-54) 5404319552844596
      (by norm_num) (by with_unfolding_all decide) (by with_unfolding_all decide)
      (by norm_num [qpow2, show Int.toNat 54 = 54 from rfl])
  have h0D : f64add 0 (5404319552844596 / 18014398509481984) =
      5404319552844596 / 18014398509481984 := by
    rw [f64add, zero_add]
    exact hrD
  have hD0 : f64sub (5404319552844596 / 18014398509481984) 0 =
      5404319552844596 / 18014398509481984 := by
    rw [f64sub, sub_zero]
    exact hrD
  have hday : dayTransactions driftState "A" 7 = [driftTx1, driftTx2] := by
    with_unfolding_all decide
  have hprev : findDailyBalance driftState (7 - 1) "A" = none := by
    with_unfolding_all decide
  have hfold : (dayTransactions driftState "A" 7).foldl accumulateTotalsF64
      ⟨0, 0, 0, 0⟩ = ⟨5404319552844596 / 18014398509481984, 0, 0, 0⟩ := by
    rw [hday, List.foldl_cons, List.foldl_cons, List.foldl_nil]
    have h1 : accumulateTotalsF64 ⟨0, 0, 0, 0⟩ driftTx1 =
        ⟨f64add 0 (f64round (1/10)), 0, 0, 0⟩ := rfl
    rw [h1, ha, h0a]
    have h2 : accumulateTotalsF64 ⟨3602879701896397 / 36028797018963968, 0, 0, 0⟩
        driftTx2 =
        ⟨f64add (3602879701896397 / 36028797018963968) (f64round (1/5)), 0, 0, 0⟩ := rfl
    rw [h2, hb, hsum]
  have hclose : (calculateDailyBalanceF64 driftState "A" 7).closingBalance =
      f64sub (f64sub (f64sub (f64add
        (match findDailyBalance driftState (7 - 1) "A" with
         | some previousBalance => f64round previousBalance.actualBalance
         | none => 0)
        ((dayTransactions driftState "A" 7).foldl accumulateTotalsF64
          ⟨0, 0, 0, 0⟩).totalDeposits)
        ((dayTransactions driftState "A" 7).foldl accumulateTotalsF64
          ⟨0, 0, 0, 0⟩).totalWithdrawals)
        ((dayTransactions driftState "A" 7).foldl accumulateTotalsF64
          ⟨0, 0, 0, 0⟩).totalExpenses)
        ((dayTransactions driftState "A" 7).foldl accumulateTotalsF64
          ⟨0, 0, 0, 0⟩).totalTransfers := rfl
  have hB : (calculateDailyBalanceF64 driftState "A" 7).closingBalance =
      5404319552844596 / 2 ^ 54 := by
    rw [hclose, hprev, hfold]
    show f64sub (f64sub (f64sub (f64add 0 (5404319552844596 / 18014398509481984)) 0) 0) 0 =
      5404319552844596 / 2 ^ 54
    rw [h0D, hD0, hD0, hD0]
    norm_num
  have hA : (calculateDailyBalance driftState "A" 7).closingBalance = 3/10 := by
    with_unfolding_all decide
  refine ⟨hA, hB, ?_⟩
  rw [hA, hB]
  norm_num

theorem roundTiesEven_intCast (z : ℤ) : roundTiesEven (z : ℚ) = z := by
  unfold roundTiesEven
  rw [Int.floor_intCast, sub_self]
  rw [if_pos (by norm_num)]

theorem qpow2_nonpos (e : ℤ) (h : e ≤ 0) :
    qpow2 e = 1 / ((2 ^ (-e).toNat : ℕ) : ℚ) := by
  unfold qpow2
  rcases lt_or_eq_of_le h with hlt | heq
  · rw [if_neg (not_le.mpr hlt)]
  · subst heq
    simp

theorem natLog2F_le (f : ℕ) :
    ∀ n k : ℕ, 1 ≤ k → n < 2 ^ k → natLog2F f n ≤ k - 1 := by
  induction f with
  | zero =>
      intro n k hk hn
      simp [natLog2F]
  | succ f ih =>
      intro n k hk hn
      unfold natLog2F
      by_cases h2 : 2 ≤ n
      · rw [if_pos h2]
        have hk2 : 2 ≤ k := by
          by_contra hcon
          have hk1 : k = 1 := by omega
          subst hk1
          rw [pow_one] at hn
          omega
        have hdiv : n / 2 < 2 ^ (k - 1) := by
          rw [Nat.div_lt_iff_lt_mul (by norm_num : 0 < 2)]
          calc n < 2 ^ k := hn
            _ = 2 ^ (k - 1) * 2 := by
                rw [← pow_succ]
                congr 1
                omega
        have hrec := ih (n / 2) (k - 1) (by omega) hdiv
        omega
      · rw [if_neg h2]
        omega

theorem natLog2_le (n k : ℕ) (hk : 1 ≤ k) (hn : n < 2 ^ k) : natLog2 n ≤ k - 1 :=
  natLog2F_le 1100 n k hk hn

theorem ratFloorLog2_le_e0 (q : ℚ) :
    ratFloorLog2 q ≤ (natLog2 q.num.natAbs : ℤ) - (natLog2 q.den : ℤ) := by
  show (if qpow2 ((natLog2 q.num.natAbs : ℤ) - (natLog2 q.den : ℤ)) ≤ q
        then (natLog2 q.num.natAbs : ℤ) - (natLog2 q.den : ℤ)
        else (natLog2 q.num.natAbs : ℤ) - (natLog2 q.den : ℤ) - 1) ≤
       (natLog2 q.num.natAbs : ℤ) - (natLog2 q.den : ℤ)
  by_cases h : qpow2 ((natLog2 q.num.natAbs : ℤ) - (natLog2 q.den : ℤ)) ≤ q
  · rw [if_pos h]
  · rw [if_neg h]
    omega

/-- Binary64 rounding is the identity on integers below `2 ^ 53`. -/
theorem f64round_int (z : ℤ) (hb : z.natAbs < 2 ^ 53) :
    f64round (z : ℚ) = (z : ℚ) := by
  by_cases hz : (z : ℚ) = 0
  · rw [f64round, if_pos hz, hz]
  · have habs : |(z : ℚ)| = ((z.natAbs : ℕ) : ℚ) := by
      rw [Int.cast_natAbs, Int.cast_abs]
    have hnum : (|(z : ℚ)|).num = (z.natAbs : ℤ) := by
      rw [habs, Rat.num_natCast]
    have hden : (|(z : ℚ)|).den = 1 := by
      rw [habs, Rat.den_natCast]
    have h1 : natLog2 1 = 0 := rfl
    have hl2 : natLog2 z.natAbs ≤ 52 := natLog2_le z.natAbs 53 (by norm_num) hb
    have hL : ratFloorLog2 |(z : ℚ)| ≤ 52 := by
      have h := ratFloorLog2_le_e0 |(z : ℚ)|
      rw [hnum, hden, h1] at h
      simp only [Int.natAbs_ofNat, Nat.cast_zero, sub_zero] at h
      omega
    rw [f64round, if_neg hz]
    have he : ratFloorLog2 |(z : ℚ)| - 52 ≤ 0 := by omega
    have hq2 : qpow2 (ratFloorLog2 |(z : ℚ)| - 52) =
        1 / ((2 ^ (-(ratFloorLog2 |(z : ℚ)| - 52)).toNat : ℕ) : ℚ) :=
      qpow2_nonpos _ he
    have hcpos : (0 : ℚ) < ((2 ^ (-(ratFloorLog2 |(z : ℚ)| - 52)).toNat : ℕ) : ℚ) := by
      have : 0 < (2 ^ (-(ratFloorLog2 |(z : ℚ)| - 52)).toNat : ℕ) :=
        Nat.pos_pow_of_pos _ (by norm_num)
      exact_mod_cast this
    have hdivmul : (z : ℚ) / qpow2 (ratFloorLog2 |(z : ℚ)| - 52) =
        ((z * (2 ^ (-(ratFloorLog2 |(z : ℚ)| - 52)).toNat : ℕ) : ℤ) : ℚ) := by
      rw [hq2, one_div, div_inv_eq_mul]
      push_cast
      ring
    rw [hdivmul, roundTiesEven_intCast, hq2]
    push_cast
    field_simp

/-- Binary64 addition is exact on integers whose sum stays below `2 ^ 53`. -/
theorem f64add_int (a b : ℤ) (h : (a + b).natAbs < 2 ^ 53) :
    f64add (a : ℚ) (b : ℚ) = ((a + b : ℤ) : ℚ) := by
  rw [f64add, show (a : ℚ) + (b : ℚ) = ((a + b : ℤ) : ℚ) from by push_cast; ring]
  exact f64round_int _ h

/-- Binary64 subtraction is exact on integers whose difference stays below
`2 ^ 53`. -/
theorem f64sub_int (a b : ℤ) (h : (a - b).natAbs < 2 ^ 53) :
    f64sub (a : ℚ) (b : ℚ) = ((a - b : ℤ) : ℚ) := by
  rw [f64sub, show (a : ℚ) - (b : ℚ) = ((a - b : ℤ) : ℚ) from by push_cast; ring]
  exact f64round_int _ h

/-- The absolute amounts of a batch of transactions. -/
def absAmountSum (ts : List Transaction) : ℚ :=
  (ts.map (fun t => |t.amount|)).sum

theorem absAmountSum_nonneg (ts : List Transaction) : 0 ≤ absAmountSum ts := by
  unfold absAmountSum
  induction ts with
  | nil => simp
  | cons t rest ih =>
      rw [List.map_cons, List.sum_cons]
      have := abs_nonneg t.amount
      linarith

theorem absAmountSum_cons (t : Transaction) (ts : List Transaction) :
    absAmountSum (t :: ts) = |t.amount| + absAmountSum ts := by
  unfold absAmountSum
  rw [List.map_cons, List.sum_cons]

/-- A convenient expression of "this rational is an integer below the
53-bit bound in absolute value". -/
theorem natAbs_lt_of_cast_bound (z : ℤ) (bound : ℚ)
    (h : |(z : ℚ)| ≤ bound) (hb : bound < 2 ^ 53) : z.natAbs < 2 ^ 53 := by
  have hcast : |(z : ℚ)| = ((z.natAbs : ℕ) : ℚ) := by
    rw [Int.cast_natAbs, Int.cast_abs]
  rw [hcast] at h
  have hlt : ((z.natAbs : ℕ) : ℚ) < ((2 ^ 53 : ℕ) : ℚ) := by
    calc ((z.natAbs : ℕ) : ℚ) ≤ bound := h
      _ < 2 ^ 53 := hb
      _ = ((2 ^ 53 : ℕ) : ℚ) := by push_cast; ring
  exact_mod_cast hlt

/-- The totals fold evaluated in binary64 agrees with the exact fold when
every amount is an integer and the accumulated magnitudes stay below
`2 ^ 53`. -/
theorem foldF64_exact (ts : List Transaction) :
    ∀ za zw ze zt : ℤ,
    (∀ t ∈ ts, ∃ z : ℤ, t.amount = (z : ℚ)) →
    |(za : ℚ)| + |(zw : ℚ)| + |(ze : ℚ)| + |(zt : ℚ)| + absAmountSum ts < 2 ^ 53 →
    (ts.foldl accumulateTotalsF64 ⟨(za : ℚ), (zw : ℚ), (ze : ℚ), (zt : ℚ)⟩ =
      ts.foldl accumulateTotals ⟨(za : ℚ), (zw : ℚ), (ze : ℚ), (zt : ℚ)⟩) ∧
    ∃ za2 zw2 ze2 zt2 : ℤ,
      ts.foldl accumulateTotals ⟨(za : ℚ), (zw : ℚ), (ze : ℚ), (zt : ℚ)⟩ =
        ⟨(za2 : ℚ), (zw2 : ℚ), (ze2 : ℚ), (zt2 : ℚ)⟩ ∧
      |(za2 : ℚ)| + |(zw2 : ℚ)| + |(ze2 : ℚ)| + |(zt2 : ℚ)| ≤
        |(za : ℚ)| + |(zw : ℚ)| + |(ze : ℚ)| + |(zt : ℚ)| + absAmountSum ts := by
  induction ts with
  | nil =>
      intro za zw ze zt hints hbound
      refine ⟨rfl, za, zw, ze, zt, rfl, ?_⟩
      have : absAmountSum [] = 0 := rfl
      linarith
  | cons t rest ih =>
      intro za zw ze zt hints hbound
      obtain ⟨z, hz⟩ := hints t (List.mem_cons_self t rest)
      rw [absAmountSum_cons, hz] at hbound
      have hSnn := absAmountSum_nonneg rest
      have ha0 : (0:ℚ) ≤ |(za : ℚ)| := abs_nonneg _
      have hw0 : (0:ℚ) ≤ |(zw : ℚ)| := abs_nonneg _
      have he0 : (0:ℚ) ≤ |(ze : ℚ)| := abs_nonneg _
      have ht0 : (0:ℚ) ≤ |(zt : ℚ)| := abs_nonneg _
      have hzb : z.natAbs < 2 ^ 53 := by
        apply natAbs_lt_of_cast_bound z (|(z : ℚ)|) le_rfl
        linarith
      have hr : f64round t.amount = t.amount := by
        rw [hz]
        exact f64round_int z hzb
      have hrest : ∀ u ∈ rest, ∃ w : ℤ, u.amount = (w : ℚ) :=
        fun u hu => hints u (List.mem_cons_of_mem t hu)
      rw [List.foldl_cons, List.foldl_cons]
      cases htype : t.type with
      | DEPOSIT =>
          have htri : |((za + z : ℤ) : ℚ)| ≤ |(za : ℚ)| + |(z : ℚ)| := by
            push_cast
            exact abs_add _ _
          have hstepF : accumulateTotalsF64 ⟨(za : ℚ), (zw : ℚ), (ze : ℚ), (zt : ℚ)⟩ t =
              ⟨f64add (za : ℚ) (f64round t.amount), (zw : ℚ), (ze : ℚ), (zt : ℚ)⟩ := by
            unfold accumulateTotalsF64
            rw [htype]
          have hstepQ : accumulateTotals ⟨(za : ℚ), (zw : ℚ), (ze : ℚ), (zt : ℚ)⟩ t =
              ⟨((za + z : ℤ) : ℚ), (zw : ℚ), (ze : ℚ), (zt : ℚ)⟩ := by
            unfold accumulateTotals
            rw [htype, hz]
            push_cast
            ring
          have hsum : f64add (za : ℚ) (f64round t.amount) = ((za + z : ℤ) : ℚ) := by
            rw [hr, hz]
            apply f64add_int
            apply natAbs_lt_of_cast_bound _ (|(za : ℚ)| + |(z : ℚ)|) htri
            linarith
          rw [hstepF, hsum, hstepQ]
          have hbound2 : |((za + z : ℤ) : ℚ)| + |(zw : ℚ)| + |(ze : ℚ)| + |(zt : ℚ)| +
              absAmountSum rest < 2 ^ 53 := by
            linarith
          obtain ⟨heq, za2, zw2, ze2, zt2, hrec, hb2⟩ :=
            ih (za + z) zw ze zt hrest hbound2
          refine ⟨heq, za2, zw2, ze2, zt2, hrec, ?_⟩
          rw [absAmountSum_cons, hz]
          linarith
      | WITHDRAWAL =>
          have htri : |((zw + z : ℤ) : ℚ)| ≤ |(zw : ℚ)| + |(z : ℚ)| := by
            push_cast
            exact abs_add _ _
          have hstepF : accumulateTotalsF64 ⟨(za : ℚ), (zw : ℚ), (ze : ℚ), (zt : ℚ)⟩ t =
              ⟨(za : ℚ), f64add (zw : ℚ) (f64round t.amount), (ze : ℚ), (zt : ℚ)⟩ := by
            unfold accumulateTotalsF64
            rw [htype]
          have hstepQ : accumulateTotals ⟨(za : ℚ), (zw : ℚ), (ze : ℚ), (zt : ℚ)⟩ t =
              ⟨(za : ℚ), ((zw + z : ℤ) : ℚ), (ze : ℚ), (zt : ℚ)⟩ := by
            unfold accumulateTotals
            rw [htype, hz]
            push_cast
            ring
          have hsum : f64add (zw : ℚ) (f64round t.amount) = ((zw + z : ℤ) : ℚ) := by
            rw [hr, hz]
            apply f64add_int
            apply natAbs_lt_of_cast_bound _ (|(zw : ℚ)| + |(z : ℚ)|) htri
            linarith
          rw [hstepF, hsum, hstepQ]
          have hbound2 : |(za : ℚ)| + |((zw + z : ℤ) : ℚ)| + |(ze : ℚ)| + |(zt : ℚ)| +
              absAmountSum rest < 2 ^ 53 := by
            linarith
          obtain ⟨heq, za2, zw2, ze2, zt2, hrec, hb2⟩ :=
            ih za (zw + z) ze zt hrest hbound2
          refine ⟨heq, za2, zw2, ze2, zt2, hrec, ?_⟩
          rw [absAmountSum_cons, hz]
          linarith
      | EXPENSE =>
          have htri : |((ze + z : ℤ) : ℚ)| ≤ |(ze : ℚ)| + |(z : ℚ)| := by
            push_cast
            exact abs_add _ _
          have hstepF : accumulateTotalsF64 ⟨(za : ℚ), (zw : ℚ), (ze : ℚ), (zt : ℚ)⟩ t =
              ⟨(za : ℚ), (zw : ℚ), f64add (ze : ℚ) (f64round t.amount), (zt : ℚ)⟩ := by
            unfold accumulateTotalsF64
            rw [htype]
          have hstepQ : accumulateTotals ⟨(za : ℚ), (zw : ℚ), (ze : ℚ), (zt : ℚ)⟩ t =
              ⟨(za : ℚ), (zw : ℚ), ((ze + z : ℤ) : ℚ), (zt : ℚ)⟩ := by
            unfold accumulateTotals
            rw [htype, hz]
            push_cast
            ring
          have hsum : f64add (ze : ℚ) (f64round t.amount) = ((ze + z : ℤ) : ℚ) := by
            rw [hr, hz]
            apply f64add_int
            apply natAbs_lt_of_cast_bound _ (|(ze : ℚ)| + |(z : ℚ)|) htri
            linarith
          rw [hstepF, hsum, hstepQ]
          have hbound2 : |(za : ℚ)| + |(zw : ℚ)| + |((ze + z : ℤ) : ℚ)| + |(zt : ℚ)| +
              absAmountSum rest < 2 ^ 53 := by
            linarith
          obtain ⟨heq, za2, zw2, ze2, zt2, hrec, hb2⟩ :=
            ih za zw (ze + z) zt hrest hbound2
          refine ⟨heq, za2, zw2, ze2, zt2, hrec, ?_⟩
          rw [absAmountSum_cons, hz]
          linarith
      | TRANSFER =>
          have htri : |((zt + z : ℤ) : ℚ)| ≤ |(zt : ℚ)| + |(z : ℚ)| := by
            push_cast
            exact abs_add _ _
          have hstepF : accumulateTotalsF64 ⟨(za : ℚ), (zw : ℚ), (ze : ℚ), (zt : ℚ)⟩ t =
              ⟨(za : ℚ), (zw : ℚ), (ze : ℚ), f64add (zt : ℚ) (f64round t.amount)⟩ := by
            unfold accumulateTotalsF64
            rw [htype]
          have hstepQ : accumulateTotals ⟨(za : ℚ), (zw : ℚ), (ze : ℚ), (zt : ℚ)⟩ t =
              ⟨(za : ℚ), (zw : ℚ), (ze : ℚ), ((zt + z : ℤ) : ℚ)⟩ := by
            unfold accumulateTotals
            rw [htype, hz]
            push_cast
            ring
          have hsum : f64add (zt : ℚ) (f64round t.amount) = ((zt + z : ℤ) : ℚ) := by
            rw [hr, hz]
            apply f64add_int
            apply natAbs_lt_of_cast_bound _ (|(zt : ℚ)| + |(z : ℚ)|) htri
            linarith
          rw [hstepF, hsum, hstepQ]
          have hbound2 : |(za : ℚ)| + |(zw : ℚ)| + |(ze : ℚ)| + |((zt + z : ℤ) : ℚ)| +
              absAmountSum rest < 2 ^ 53 := by
            linarith
          obtain ⟨heq, za2, zw2, ze2, zt2, hrec, hb2⟩ :=
            ih za zw ze (zt + z) hrest hbound2
          refine ⟨heq, za2, zw2, ze2, zt2, hrec, ?_⟩
          rw [absAmountSum_cons, hz]
          linarith

/-- The exact fold computes, per type, the sum of that type's amounts. -/
theorem foldl_accumulateTotals_sum (ts : List Transaction) :
    ∀ acc : Totals,
    ts.foldl accumulateTotals acc =
      ⟨acc.totalDeposits +
        ((ts.filter (fun t => t.type == TransactionType.DEPOSIT)).map
          (fun t => t.amount)).sum,
       acc.totalWithdrawals +
        ((ts.filter (fun t => t.type == TransactionType.WITHDRAWAL)).map
          (fun t => t.amount)).sum,
       acc.totalExpenses +
        ((ts.filter (fun t => t.type == TransactionType.EXPENSE)).map
          (fun t => t.amount)).sum,
       acc.totalTransfers +
        ((ts.filter (fun t => t.type == TransactionType.TRANSFER)).map
          (fun t => t.amount)).sum⟩ := by
  induction ts with
  | nil =>
      intro acc
      simp
  | cons t rest ih =>
      intro acc
      rw [List.foldl_cons, ih (accumulateTotals acc t)]
      cases htype : t.type <;>
        simp [accumulateTotals, htype, List.filter_cons, add_assoc]

/-- C2: calculateDailyBalance satisfies the claimed structural contract in
exact (rational) arithmetic: the opening balance is the prior day's
record's actualBalance when that record exists and 0 otherwise, each
per-type total is the sum of that day's transaction amounts of that type,
closing = opening + deposits − withdrawals − expenses − transfers, and
transactionCount is the day's transaction count.  The arithmetic is NOT
exact decimal, however: JavaScript evaluates it in IEEE-754 binary64.  The
binary64 evaluation provably coincides with the exact one whenever the
opening balance and all amounts are integers and their magnitudes sum to
less than 2^53 — and it drifts on decimal fractions such as 0.10 + 0.20
(see the counterexample). -/
theorem calculate_structure_and_binary64 (s : LedgerState) (aid : String) (d : ℤ)
    (hints : ∀ t ∈ dayTransactions s aid d, ∃ z : ℤ, t.amount = (z : ℚ))
    (hopen : ∃ zo : ℤ, (calculateDailyBalance s aid d).openingBalance = (zo : ℚ))
    (hbound : |(calculateDailyBalance s aid d).openingBalance| +
      absAmountSum (dayTransactions s aid d) < 2 ^ 53) :
    ((calculateDailyBalance s aid d).openingBalance =
      (match findDailyBalance s (d - 1) aid with
       | some previousBalance => previousBalance.actualBalance
       | none => 0)) ∧
    ((calculateDailyBalance s aid d).closingBalance =
      (calculateDailyBalance s aid d).openingBalance +
        (calculateDailyBalance s aid d).totalDeposits -
        (calculateDailyBalance s aid d).totalWithdrawals -
        (calculateDailyBalance s aid d).totalExpenses -
        (calculateDailyBalance s aid d).totalTransfers) ∧
    ((calculateDailyBalance s aid d).totalDeposits =
      (((dayTransactions s aid d).filter
        (fun t => t.type == TransactionType.DEPOSIT)).map (fun t => t.amount)).sum) ∧
    ((calculateDailyBalance s aid d).totalWithdrawals =
      (((dayTransactions s aid d).filter
        (fun t => t.type == TransactionType.WITHDRAWAL)).map (fun t => t.amount)).sum) ∧
    ((calculateDailyBalance s aid d).totalExpenses =
      (((dayTransactions s aid d).filter
        (fun t => t.type == TransactionType.EXPENSE)).map (fun t => t.amount)).sum) ∧
    ((calculateDailyBalance s aid d).totalTransfers =
      (((dayTransactions s aid d).filter
        (fun t => t.type == TransactionType.TRANSFER)).map (fun t => t.amount)).sum) ∧
    ((calculateDailyBalance s aid d).transactionCount =
      (dayTransactions s aid d).length) ∧
    (calculateDailyBalanceF64 s aid d = calculateDailyBalance s aid d) := by
  obtain ⟨zo, hzo⟩ := hopen
  rw [hzo] at hbound
  have hSnn := absAmountSum_nonneg (dayTransactions s aid d)
  have hzob : zo.natAbs < 2 ^ 53 :=
    natAbs_lt_of_cast_bound zo (|(zo : ℚ)|) le_rfl (by linarith)
  have hopenQ : (match findDailyBalance s (d - 1) aid with
      | some previousBalance => previousBalance.actualBalance
      | none => 0) = (zo : ℚ) := hzo
  have hsum0 := foldl_accumulateTotals_sum (dayTransactions s aid d) ⟨0, 0, 0, 0⟩
  have hD : (calculateDailyBalance s aid d).totalDeposits =
      (((dayTransactions s aid d).filter
        (fun t => t.type == TransactionType.DEPOSIT)).map (fun t => t.amount)).sum := by
    show ((dayTransactions s aid d).foldl accumulateTotals
      ⟨0, 0, 0, 0⟩).totalDeposits = _
    rw [hsum0]
    show 0 + _ = _
    rw [zero_add]
  have hW : (calculateDailyBalance s aid d).totalWithdrawals =
      (((dayTransactions s aid d).filter
        (fun t => t.type == TransactionType.WITHDRAWAL)).map (fun t => t.amount)).sum := by
    show ((dayTransactions s aid d).foldl accumulateTotals
      ⟨0, 0, 0, 0⟩).totalWithdrawals = _
    rw [hsum0]
    show 0 + _ = _
    rw [zero_add]
  have hE : (calculateDailyBalance s aid d).totalExpenses =
      (((dayTransactions s aid d).filter
        (fun t => t.type == TransactionType.EXPENSE)).map (fun t => t.amount)).sum := by
    show ((dayTransactions s aid d).foldl accumulateTotals
      ⟨0, 0, 0, 0⟩).totalExpenses = _
    rw [hsum0]
    show 0 + _ = _
    rw [zero_add]
  have hT : (calculateDailyBalance s aid d).totalTransfers =
      (((dayTransactions s aid d).filter
        (fun t => t.type == TransactionType.TRANSFER)).map (fun t => t.amount)).sum := by
    show ((dayTransactions s aid d).foldl accumulateTotals
      ⟨0, 0, 0, 0⟩).totalTransfers = _
    rw [hsum0]
    show 0 + _ = _
    rw [zero_add]
  have hfold := foldF64_exact (dayTransactions s aid d) 0 0 0 0 hints
    (by
      simp only [Int.cast_zero, abs_zero, zero_add]
      linarith [abs_nonneg ((zo : ℚ))])
  obtain ⟨hfeq, za2, zw2, ze2, zt2, hrec, hb2⟩ := hfold
  simp only [Int.cast_zero] at hfeq hrec
  simp only [Int.cast_zero, abs_zero, zero_add] at hb2
  have hza0 : (0:ℚ) ≤ |(za2 : ℚ)| := abs_nonneg _
  have hzw0 : (0:ℚ) ≤ |(zw2 : ℚ)| := abs_nonneg _
  have hze0 : (0:ℚ) ≤ |(ze2 : ℚ)| := abs_nonneg _
  have hzt0 : (0:ℚ) ≤ |(zt2 : ℚ)| := abs_nonneg _
  have hopenF : (match findDailyBalance s (d - 1) aid with
      | some previousBalance => f64round previousBalance.actualBalance
      | none => 0) = (zo : ℚ) := by
    cases hfind : findDailyBalance s (d - 1) aid with
    | none =>
        rw [hfind] at hopenQ
        exact hopenQ
    | some p =>
        rw [hfind] at hopenQ
        show f64round p.actualBalance = (zo : ℚ)
        have hp : p.actualBalance = (zo : ℚ) := hopenQ
        rw [hp]
        exact f64round_int zo hzob
  have e1 : |((zo : ℚ) + (za2 : ℚ))| ≤ |(zo : ℚ)| + |(za2 : ℚ)| := abs_add _ _
  have e2 : |((zo : ℚ) + (za2 : ℚ) - (zw2 : ℚ))| ≤
      |((zo : ℚ) + (za2 : ℚ))| + |(zw2 : ℚ)| := abs_sub _ _
  have e3 : |((zo : ℚ) + (za2 : ℚ) - (zw2 : ℚ) - (ze2 : ℚ))| ≤
      |((zo : ℚ) + (za2 : ℚ) - (zw2 : ℚ))| + |(ze2 : ℚ)| := abs_sub _ _
  have c1 : f64add (zo : ℚ) (za2 : ℚ) = ((zo + za2 : ℤ) : ℚ) := by
    apply f64add_int
    apply natAbs_lt_of_cast_bound _ (|(zo : ℚ)| + |(za2 : ℚ)|)
    · push_cast
      exact abs_add _ _
    · linarith
  have c2 : f64sub ((zo + za2 : ℤ) : ℚ) (zw2 : ℚ) =
      ((zo + za2 - zw2 : ℤ) : ℚ) := by
    apply f64sub_int
    apply natAbs_lt_of_cast_bound _
      (|((zo : ℚ) + (za2 : ℚ))| + |(zw2 : ℚ)|)
    · push_cast
      exact abs_sub _ _
    · linarith
  have c3 : f64sub ((zo + za2 - zw2 : ℤ) : ℚ) (ze2 : ℚ) =
      ((zo + za2 - zw2 - ze2 : ℤ) : ℚ) := by
    apply f64sub_int
    apply natAbs_lt_of_cast_bound _
      (|((zo : ℚ) + (za2 : ℚ) - (zw2 : ℚ))| + |(ze2 : ℚ)|)
    · push_cast
      exact abs_sub _ _
    · linarith
  have c4 : f64sub ((zo + za2 - zw2 - ze2 : ℤ) : ℚ) (zt2 : ℚ) =
      ((zo + za2 - zw2 - ze2 - zt2 : ℤ) : ℚ) := by
    apply f64sub_int
    apply natAbs_lt_of_cast_bound _
      (|((zo : ℚ) + (za2 : ℚ) - (zw2 : ℚ) - (ze2 : ℚ))| + |(zt2 : ℚ)|)
    · push_cast
      exact abs_sub _ _
    · linarith
  have hcF : (calculateDailyBalanceF64 s aid d).closingBalance =
      ((zo + za2 - zw2 - ze2 - zt2 : ℤ) : ℚ) := by
    show f64sub (f64sub (f64sub (f64add
        (match findDailyBalance s (d - 1) aid with
         | some previousBalance => f64round previousBalance.actualBalance
         | none => 0)
        ((dayTransactions s aid d).foldl accumulateTotalsF64
          ⟨0, 0, 0, 0⟩).totalDeposits)
        ((dayTransactions s aid d).foldl accumulateTotalsF64
          ⟨0, 0, 0, 0⟩).totalWithdrawals)
        ((dayTransactions s aid d).foldl accumulateTotalsF64
          ⟨0, 0, 0, 0⟩).totalExpenses)
        ((dayTransactions s aid d).foldl accumulateTotalsF64
          ⟨0, 0, 0, 0⟩).totalTransfers = _
    rw [hopenF, hfeq, hrec]
    show f64sub (f64sub (f64sub (f64add (zo : ℚ) (za2 : ℚ)) (zw2 : ℚ)) (ze2 : ℚ))
      (zt2 : ℚ) = _
    rw [c1, c2, c3, c4]
  have hcQ : (calculateDailyBalance s aid d).closingBalance =
      ((zo + za2 - zw2 - ze2 - zt2 : ℤ) : ℚ) := by
    show (match findDailyBalance s (d - 1) aid with
         | some previousBalance => previousBalance.actualBalance
         | none => 0) +
        ((dayTransactions s aid d).foldl accumulateTotals
          ⟨0, 0, 0, 0⟩).totalDeposits -
        ((dayTransactions s aid d).foldl accumulateTotals
          ⟨0, 0, 0, 0⟩).totalWithdrawals -
        ((dayTransactions s aid d).foldl accumulateTotals
          ⟨0, 0, 0, 0⟩).totalExpenses -
        ((dayTransactions s aid d).foldl accumulateTotals
          ⟨0, 0, 0, 0⟩).totalTransfers = _
    rw [hopenQ, hrec]
    show (zo : ℚ) + (za2 : ℚ) - (zw2 : ℚ) - (ze2 : ℚ) - (zt2 : ℚ) = _
    push_cast
    ring
  have hext : ∀ x y : CalcResult,
      x.openingBalance = y.openingBalance → x.closingBalance = y.closingBalance →
      x.totalDeposits = y.totalDeposits →
      x.totalWithdrawals = y.totalWithdrawals →
      x.totalExpenses = y.totalExpenses →
      x.totalTransfers = y.totalTransfers →
      x.transactionCount = y.transactionCount → x = y := by
    intro x y
    cases x
    cases y
    intro h1 h2 h3 h4 h5 h6 h7
    simp only [CalcResult.mk.injEq]
    exact ⟨h1, h2, h3, h4, h5, h6, h7⟩
  refine ⟨rfl, ?_, hD, hW, hE, hT, rfl, ?_⟩
  · show (match findDailyBalance s (d - 1) aid with
         | some previousBalance => previousBalance.actualBalance
         | none => 0) +
        ((dayTransactions s aid d).foldl accumulateTotals
          ⟨0, 0, 0, 0⟩).totalDeposits -
        ((dayTransactions s aid d).foldl accumulateTotals
          ⟨0, 0, 0, 0⟩).totalWithdrawals -
        ((dayTransactions s aid d).foldl accumulateTotals
          ⟨0, 0, 0, 0⟩).totalExpenses -
        ((dayTransactions s aid d).foldl accumulateTotals
          ⟨0, 0, 0, 0⟩).totalTransfers = _
    rfl
  · apply hext
    · show (match findDailyBalance s (d - 1) aid with
          | some previousBalance => f64round previousBalance.actualBalance
          | none => 0) =
        (match findDailyBalance s (d - 1) aid with
          | some previousBalance => previousBalance.actualBalance
          | none => 0)
      rw [hopenF, hopenQ]
    · rw [hcF, hcQ]
    · show ((dayTransactions s aid d).foldl accumulateTotalsF64
        ⟨0, 0, 0, 0⟩).totalDeposits =
        ((dayTransactions s aid d).foldl accumulateTotals
          ⟨0, 0, 0, 0⟩).totalDeposits
      rw [hfeq]
    · show ((dayTransactions s aid d).foldl accumulateTotalsF64
        ⟨0, 0, 0, 0⟩).totalWithdrawals =
        ((dayTransactions s aid d).foldl accumulateTotals
          ⟨0, 0, 0, 0⟩).totalWithdrawals
      rw [hfeq]
    · show ((dayTransactions s aid d).foldl accumulateTotalsF64
        ⟨0, 0, 0, 0⟩).totalExpenses =
        ((dayTransactions s aid d).foldl accumulateTotals
          ⟨0, 0, 0, 0⟩).totalExpenses
      rw [hfeq]
    · show ((dayTransactions s aid d).foldl accumulateTotalsF64
        ⟨0, 0, 0, 0⟩).totalTransfers =
        ((dayTransactions s aid d).foldl accumulateTotals
          ⟨0, 0, 0, 0⟩).totalTransfers
      rw [hfeq]
    · rfl

/-- A whole-number deposit of 300 on day 10. -/
def intDayTx : Transaction :=
  { id := 1, transactionDate := 10, transactionTime := "09:00",
    type := TransactionType.DEPOSIT, amount := 300, balanceAfter := 1300,
    note := none, bankAccountId := "A", categoryId := none,
    createdBy := "u1", relatedTransactionId := none }

/-- An account with the single whole-number deposit and a closed prior-day
record of 1000. -/
def intDayState : LedgerState :=
  { accounts := [{ id := "A", accountNumber := "111", currentBalance := 1300 }],
    transactions := [intDayTx],
    dailyBalances := [
      { balanceDate := 9, bankAccountId := "A",
        openingBalance := 1000, closingBalance := 1000, actualBalance := 1000,
        totalDeposits := 0, totalWithdrawals := 0, totalExpenses := 0,
        totalTransfers := 0, unknownDeposits := 0, profit := 0,
        isClosed := true, closedBy := some "mgr" }],
    nextTxnId := 2 }

theorem calculate_structure_and_binary64_witness :
    calculateDailyBalanceF64 intDayState "A" 10 =
      calculateDailyBalance intDayState "A" 10 :=
  (calculate_structure_and_binary64 intDayState "A" 10
    (by
      intro t ht
      rw [show dayTransactions intDayState "A" 10 = [intDayTx] from by
        with_unfolding_all decide] at ht
      rw [List.mem_singleton] at ht
      subst ht
      exact ⟨300, by with_unfolding_all decide⟩)
    ⟨1000, by with_unfolding_all decide⟩
    (by
      rw [show (calculateDailyBalance intDayState "A" 10).openingBalance =
        1000 from by with_unfolding_all decide]
      rw [show absAmountSum (dayTransactions intDayState "A" 10) = 300 from by
        with_unfolding_all decide]
      norm_num)).2.2.2.2.2.2.2
